import Mathlib

/-!
Shallow embedding of the message-driven state controller of
`src/bl3_save_edit_ui/src/bl3_ui.rs` (the `Bl3Application::update` function and
the state it owns), together with proofs about the behaviour of its handlers.

External collaborators (the binary codec, the state mappers living outside
`src/`, the item editor, the XP tables of `bl3_save_edit_core`) are abstracted:
their types are collected in `ExtTypes` and their operations in `Env`.  Rust panics
(`panic!`, `expect`, out-of-bounds indexing) are modelled by the
`UpdateResult.panicked` outcome.  The `f64` field `ui_scale_factor` holds the
exact rational value of the IEEE binary64 double, and its `+= 0.05`/`-= 0.05`
arithmetic rounds to nearest-even via `roundDouble`.
-/

set_option linter.unusedVariables false

/-- The abstract types supplied by external collaborators: `Model` is the
opaque parsed file model produced by the codec (out of scope per the spec),
`IEState`/`IEMsg` are the item editor's state and message types (an external
component whose `update_state` is called through `Env`). -/
structure ExtTypes where
  Model : Type
  IEState : Type
  IEMsg : Type

/-- `bl3_save_edit_core::parser::HeaderType` (the four file kinds). -/
inductive HeaderType where
  | PcSave
  | Ps4Save
  | PcProfile
  | Ps4Profile
deriving DecidableEq, Repr

/-- `bl3_save_edit_core::bl3_save::Bl3Save`: a parsed save, its header kind and
on-disk file name; the rest of the parsed model is opaque (`E.Model`). -/
structure Bl3Save (E : ExtTypes) where
  header_type : HeaderType
  file_name : String
  model : E.Model

/-- `bl3_save_edit_core::bl3_profile::Bl3Profile`, analogous to `Bl3Save`. -/
structure Bl3Profile (E : ExtTypes) where
  header_type : HeaderType
  file_name : String
  model : E.Model

/-- `bl3_save_edit_core::file_helper::Bl3FileType`: the tagged union over the
four platform/kind variants, each wrapping a parsed file. -/
inductive Bl3FileType (E : ExtTypes) where
  | PcSave (s : Bl3Save E)
  | Ps4Save (s : Bl3Save E)
  | PcProfile (p : Bl3Profile E)
  | Ps4Profile (p : Bl3Profile E)

/-- The on-disk file name of a loaded file. -/
def Bl3FileType.fileName {E : ExtTypes} : Bl3FileType E → String
  | .PcSave s => s.file_name
  | .Ps4Save s => s.file_name
  | .PcProfile p => p.file_name
  | .Ps4Profile p => p.file_name

/-- A numeric tag distinguishing the four variants of `Bl3FileType`. -/
def Bl3FileType.kindTag {E : ExtTypes} : Bl3FileType E → Nat
  | .PcSave _ => 0
  | .Ps4Save _ => 1
  | .PcProfile _ => 2
  | .Ps4Profile _ => 3

/-- Modelled from the spec: the `PartialEq` implementation of `Bl3FileType`
lives outside `src/`; the spec fixes it as "Equality is structural on
variant + file name, used to re-locate a file after reload". -/
def Bl3FileType.structEq {E : ExtTypes} (a b : Bl3FileType E) : Bool :=
  a.kindTag == b.kindTag && a.fileName == b.fileName

/-- Lexicographic comparison of character sequences (the standard dictionary
order on strings, spelled out so that it computes). -/
def charListLe : List Char → List Char → Bool
  | [], _ => true
  | _ :: _, [] => false
  | a :: as, b :: bs => if a < b then true else if b < a then false else charListLe as bs

/-- Modelled from the spec: the `Ord` implementation of `Bl3FileType` lives
outside `src/`; the spec fixes the displayed order as "lexicographic by file
name". -/
def fileLe {E : ExtTypes} (a b : Bl3FileType E) : Prop :=
  charListLe a.fileName.data b.fileName.data = true

instance {E : ExtTypes} : DecidableRel (@fileLe E) :=
  fun a b => inferInstanceAs (Decidable (_ = true))

/-- `Vec::sort` on `Vec<Bl3FileType>` is a stable sort under the order above;
it is modelled by the (stable) insertion sort on the file-name order. -/
def sortFiles {E : ExtTypes} (l : List (Bl3FileType E)) : List (Bl3FileType E) :=
  List.insertionSort fileLe l

/-- `widgets::notification::NotificationSentiment`. -/
inductive NotificationSentiment where
  | Positive
  | Negative
deriving DecidableEq, Repr

/-- `widgets::notification::Notification`: a transient user-facing message. -/
structure Notification where
  message : String
  sentiment : NotificationSentiment
deriving DecidableEq, Repr

/-- `MessageResult<T>` from `bl3_ui.rs`: the result of an asynchronous
operation, re-entering the controller as part of a completion message. -/
inductive MessageResult (T : Type) where
  | Success (t : T)
  | Error (e : String)

/-- `ErrorExt::handle_ui_error` (impl for `MessageResult<()>` in `bl3_ui.rs`):
on an error result, replace the notification by a Negative one built as
`format!("{}: {}.", message, e)`; otherwise leave the notification alone. -/
def handleUiError (message : String) (r : Except String Unit)
    (n : Option Notification) : Option Notification :=
  match r with
  | .error e => some ⟨message ++ ": " ++ e ++ ".", .Negative⟩
  | .ok _ => n

/-- `config::Bl3Config`; directories are path strings; the `f64` scale factor
holds the exact rational value of the stored binary64 double. -/
structure Bl3Config where
  saves_dir : String
  backup_dir : String
  config_dir : String
  ui_scale_factor : Rat
deriving DecidableEq, Repr

def Bl3Config.set_saves_dir (c : Bl3Config) (d : String) : Bl3Config :=
  { c with saves_dir := d }

def Bl3Config.set_backup_dir (c : Bl3Config) (d : String) : Bl3Config :=
  { c with backup_dir := d }

def Bl3Config.set_ui_scale_factor (c : Bl3Config) (f : Rat) : Bl3Config :=
  { c with ui_scale_factor := f }

/-- `PathBuf::join` for the destination path `<saves_dir>/<file_name>`. -/
def pathJoin (dir file : String) : String :=
  dir ++ "/" ++ file

/-! ### IEEE binary64 arithmetic for `ui_scale_factor`

The source stores `ui_scale_factor` as an `f64` and mutates it with
`-= 0.05` / `+= 0.05`.  Every finite double is a rational number, so the
state holds a double's exact rational value; comparisons of finite doubles
coincide with comparisons of those rationals, and `+`/`-` on doubles are the
exact operations followed by rounding to 53 significant bits (round to
nearest, ties to even).  `roundDouble` below implements exactly that
rounding for the normal range (overflow and subnormals are far outside the
scale factor's reachable magnitudes and are not modelled). -/

/-- Fuel-driven binary length: `bitlenAux f n` is the number of binary
digits of `n` provided `n < 2 ^ f`. -/
def bitlenAux : Nat → Nat → Nat
  | 0, _ => 0
  | fuel + 1, n => if n = 0 then 0 else bitlenAux fuel (n / 2) + 1

/-- The number of binary digits of `n` (0 for 0). -/
def bitlen (n : Nat) : Nat := bitlenAux n n

/-- For positive `y`, the binade exponent: the unique `e` with
`2 ^ e ≤ y < 2 ^ (e + 1)`. -/
def expOf (y : ℚ) : ℤ :=
  let e0 : ℤ := (bitlen y.num.toNat : ℤ) - (bitlen y.den : ℤ)
  if (2 : ℚ) ^ e0 ≤ y then e0 else e0 - 1

/-- The nearest integer to `m`, ties going to the even integer. -/
def roundInt (m : ℚ) : ℤ :=
  if Int.fract m < 1 / 2 then ⌊m⌋
  else if 1 / 2 < Int.fract m then ⌊m⌋ + 1
  else if ⌊m⌋ % 2 = 0 then ⌊m⌋ else ⌊m⌋ + 1

/-- Round an exact rational to the value of the nearest IEEE binary64
double (round to nearest, ties to even; normal range). -/
def roundDouble (y : ℚ) : ℚ :=
  if y = 0 then 0
  else if 0 < y then
    (roundInt (y * 2 ^ ((52 : ℤ) - expOf y)) : ℚ) * 2 ^ (expOf y - 52)
  else
    -((roundInt ((-y) * 2 ^ ((52 : ℤ) - expOf (-y))) : ℚ) * 2 ^ (expOf (-y) - 52))

/-- IEEE binary64 addition of exactly-represented values. -/
def f64add (x y : ℚ) : ℚ := roundDouble (x + y)

/-- IEEE binary64 subtraction of exactly-represented values. -/
def f64sub (x y : ℚ) : ℚ := roundDouble (x - y)

/-- The exact value of the binary64 double written `0.05` in the source
(`3602879701896397 * 2 ^ (-56)`; the lemma `roundDouble_eq_c005` below
checks it is the double nearest 1/20). -/
def c005 : ℚ := 3602879701896397 / 2 ^ 56

/-- `views::settings::SettingsState` (the data fields used by `update`);
`ui_scale_factor` holds the exact rational value of the `f64` field, mutated
only through the rounding `f64add`/`f64sub` above. -/
structure SettingsState where
  config_dir_input : String
  backup_dir_input : String
  saves_dir_input : String
  ui_scale_factor : Rat
  choose_backup_dir_window_open : Bool
  choose_saves_dir_window_open : Bool
deriving DecidableEq, Repr

/-- `views::choose_save_directory::ChooseSaveDirectoryState` (data fields). -/
structure ChooseSaveDirectoryState where
  choose_dir_window_open : Bool
deriving DecidableEq, Repr

/-! ### Editable view state: save domain

The nested view-state structs live in `views::manage_save::*` (outside `src/`);
their data fields are reconstructed from how `bl3_ui.rs` reads and writes them.
Widget leaves (`*.input`, `*.is_unlocked`, `*.selected`) are flattened to the
carried value; externally defined payload enums (save type, player class,
skins, science level) are abstracted as integers, which `update` only stores. -/

/-- `views::manage_save::general::GeneralState` data fields. -/
structure GeneralState where
  guid_input : String
  slot_input : Int
  filename_input : String
  save_type_selected : Int
deriving DecidableEq, Repr

/-- The eight SDU slot inputs of the save character view. -/
structure SduUnlocker where
  backpack : Int
  sniper : Int
  shotgun : Int
  pistol : Int
  grenade : Int
  smg : Int
  assault_rifle : Int
  heavy : Int
deriving DecidableEq, Repr

/-- The seven ammo pool inputs of the save character view. -/
structure AmmoSetter where
  sniper : Int
  shotgun : Int
  pistol : Int
  grenade : Int
  smg : Int
  assault_rifle : Int
  heavy : Int
deriving DecidableEq, Repr

/-- The three skin selectors of the save character view. -/
structure SkinSelectors where
  head_skin : Int
  character_skin : Int
  echo_theme : Int
deriving DecidableEq, Repr

/-- The eight gear unlock toggles of the save character view. -/
structure GearUnlocker where
  grenade : Bool
  shield : Bool
  weapon_1 : Bool
  weapon_2 : Bool
  weapon_3 : Bool
  weapon_4 : Bool
  artifact : Bool
  class_mod : Bool
deriving DecidableEq, Repr

/-- `views::manage_save::character::CharacterState` data fields. -/
structure CharacterState where
  name_input : String
  level_input : Int
  experience_points_input : Int
  ability_points_input : Int
  sdu_unlocker : SduUnlocker
  ammo_setter : AmmoSetter
  player_class_selected_class : Int
  skin_selectors : SkinSelectors
  gear_unlocker : GearUnlocker
deriving DecidableEq, Repr

/-- `views::manage_save::currency::CurrencyState` data fields. -/
structure CurrencyState where
  money_input : Int
  eridium_input : Int
deriving DecidableEq, Repr

/-- The twelve vehicle unlock toggles of the save vehicle view. -/
structure VehicleUnlocker where
  outrunner_chassis : Bool
  outrunner_parts : Bool
  outrunner_skins : Bool
  jetbeast_chassis : Bool
  jetbeast_parts : Bool
  jetbeast_skins : Bool
  technical_chassis : Bool
  technical_parts : Bool
  technical_skins : Bool
  cyclone_chassis : Bool
  cyclone_parts : Bool
  cyclone_skins : Bool
deriving DecidableEq, Repr

/-- `views::manage_save::vehicle::VehicleState` data fields. -/
structure VehicleState where
  unlocker : VehicleUnlocker
deriving DecidableEq, Repr

/-- `views::manage_save::inventory::InventoryState` data fields: the item
editor state is external. -/
structure InventoryState (E : ExtTypes) where
  item_editor_state : E.IEState

/-- `views::manage_save::SaveViewState` (per-tab editable mirrors). -/
structure SaveViewState (E : ExtTypes) where
  general_state : GeneralState
  character_state : CharacterState
  inventory_state : InventoryState E
  currency_state : CurrencyState
  vehicle_state : VehicleState

/-- `views::manage_save::ManageSaveState`: the editable mirror plus the
authoritative selected save file. -/
structure ManageSaveState (E : ExtTypes) where
  save_view_state : SaveViewState E
  current_file : Bl3Save E

/-! ### Editable view state: profile domain -/

/-- `views::manage_profile::general::ProfileGeneralState` data fields. -/
structure ProfileGeneralState where
  profile_type_selected : Int
deriving DecidableEq, Repr

/-- The seven skin unlock toggles of the profile view. -/
structure ProfileSkinUnlocker where
  character_skins : Bool
  character_heads : Bool
  echo_themes : Bool
  emotes : Bool
  room_decorations : Bool
  weapon_skins : Bool
  weapon_trinkets : Bool
deriving DecidableEq, Repr

/-- The two SDU slot inputs of the profile view. -/
structure ProfileSduUnlocker where
  bank : Int
  lost_loot : Int
deriving DecidableEq, Repr

/-- The eighteen guardian reward inputs of the profile view. -/
structure GuardianRewardUnlocker where
  accuracy : Int
  action_skill_cooldown : Int
  critical_damage : Int
  elemental_damage : Int
  ffyl_duration : Int
  ffyl_movement_speed : Int
  grenade_damage : Int
  gun_damage : Int
  gun_fire_rate : Int
  max_health : Int
  melee_damage : Int
  rarity_rate : Int
  recoil_reduction : Int
  reload_speed : Int
  shield_capacity : Int
  shield_recharge_delay : Int
  shield_recharge_rate : Int
  vehicle_damage : Int
deriving DecidableEq, Repr

/-- `views::manage_profile::profile::ProfileState` data fields. -/
structure ProfileState where
  guardian_rank_tokens_input : Int
  science_level_selected : Int
  science_tokens_input : Int
  skin_unlocker : ProfileSkinUnlocker
  sdu_unlocker : ProfileSduUnlocker
  guardian_reward_unlocker : GuardianRewardUnlocker
deriving DecidableEq, Repr

/-- `views::manage_profile::keys::KeysState` data fields. -/
structure KeysState where
  golden_keys_input : Int
  diamond_keys_input : Int
  vault_card_1_keys_input : Int
  vault_card_1_chests_input : Int
  vault_card_2_keys_input : Int
  vault_card_2_chests_input : Int
  vault_card_3_keys_input : Int
  vault_card_3_chests_input : Int
deriving DecidableEq, Repr

/-- `views::manage_profile::bank::BankState` data fields: the item editor
state is external. -/
structure BankState (E : ExtTypes) where
  item_editor_state : E.IEState

/-- `views::manage_profile::ProfileViewState` (per-tab editable mirrors). -/
structure ProfileViewState (E : ExtTypes) where
  general_state : ProfileGeneralState
  profile_state : ProfileState
  keys_state : KeysState
  bank_state : BankState E

/-- `views::manage_profile::ManageProfileState`: the editable mirror plus the
authoritative selected profile file. -/
structure ManageProfileState (E : ExtTypes) where
  profile_view_state : ProfileViewState E
  current_file : Bl3Profile E

/-! ### View state machine -/

/-- `views::manage_save::main::SaveTabBarView`. -/
inductive SaveTabBarView where
  | General
  | Character
  | Inventory
  | Currency
  | Vehicle
  | Settings
deriving DecidableEq, Repr

/-- `views::manage_save::ManageSaveView`. -/
inductive ManageSaveView where
  | TabBar (v : SaveTabBarView)
deriving DecidableEq, Repr

/-- `views::manage_profile::main::ProfileTabBarView`. -/
inductive ProfileTabBarView where
  | General
  | Profile
  | Keys
  | Bank
  | Settings
deriving DecidableEq, Repr

/-- `views::manage_profile::ManageProfileView`. -/
inductive ManageProfileView where
  | TabBar (v : ProfileTabBarView)
deriving DecidableEq, Repr

/-- `ViewState` from `bl3_ui.rs`: the active top-level screen. -/
inductive ViewState where
  | Initializing
  | Loading
  | ChooseSaveDirectory
  | ManageSave (v : ManageSaveView)
  | ManageProfile (v : ManageProfileView)
deriving DecidableEq, Repr

/-- The application state owned by the controller (`Bl3Application`), without
the render-only widget caches (`pick_list`/`button` states, fonts) and the
update-check fields, which no claim concerns. -/
structure Bl3Application (E : ExtTypes) where
  config : Bl3Config
  view_state : ViewState
  choose_save_directory_state : ChooseSaveDirectoryState
  manage_save_state : ManageSaveState E
  manage_profile_state : ManageProfileState E
  loaded_files_selected : Bl3FileType E
  loaded_files : List (Bl3FileType E)
  notification : Option Notification
  is_reloading_saves : Bool
  settings_state : SettingsState

/-! ### Messages -/

/-- `views::choose_save_directory::ChooseSaveInteractionMessage`. -/
inductive ChooseSaveInteractionMessage where
  | ChooseDirPressed
deriving DecidableEq, Repr

/-- `views::manage_save::main::SaveTabBarInteractionMessage`. -/
inductive SaveTabBarInteractionMessage where
  | General
  | Character
  | Inventory
  | Currency
  | Vehicle
  | Settings
deriving DecidableEq, Repr

/-- `views::manage_save::general::SaveGeneralInteractionMessage`. -/
inductive SaveGeneralInteractionMessage where
  | Guid (guid : String)
  | Slot (slot : Int)
  | GenerateGuidPressed
  | SaveTypeSelected (save_type : Int)
deriving DecidableEq, Repr

/-- `views::manage_save::character::CharacterSduMessage`. -/
inductive CharacterSduMessage where
  | Backpack (level : Int)
  | Sniper (level : Int)
  | Shotgun (level : Int)
  | Pistol (level : Int)
  | Grenade (level : Int)
  | Smg (level : Int)
  | AssaultRifle (level : Int)
  | Heavy (level : Int)
deriving DecidableEq, Repr

/-- `views::manage_save::character::CharacterAmmoMessage`. -/
inductive CharacterAmmoMessage where
  | Sniper (amount : Int)
  | Shotgun (amount : Int)
  | Pistol (amount : Int)
  | Grenade (amount : Int)
  | Smg (amount : Int)
  | AssaultRifle (amount : Int)
  | Heavy (amount : Int)
deriving DecidableEq, Repr

/-- `views::manage_save::character::CharacterSkinSelectedMessage`. -/
inductive CharacterSkinSelectedMessage where
  | HeadSkin (selected : Int)
  | CharacterSkin (selected : Int)
  | EchoTheme (selected : Int)
deriving DecidableEq, Repr

/-- `views::manage_save::character::CharacterGearUnlockedMessage`. -/
inductive CharacterGearUnlockedMessage where
  | Grenade (b : Bool)
  | Shield (b : Bool)
  | Weapon1 (b : Bool)
  | Weapon2 (b : Bool)
  | Weapon3 (b : Bool)
  | Weapon4 (b : Bool)
  | Artifact (b : Bool)
  | ClassMod (b : Bool)
deriving DecidableEq, Repr

/-- `views::manage_save::character::SaveCharacterInteractionMessage`. -/
inductive SaveCharacterInteractionMessage where
  | Name (name_input : String)
  | Level (level : Int)
  | ExperiencePoints (xp : Int)
  | AbilityPoints (points : Int)
  | SduMessage (m : CharacterSduMessage)
  | MaxSduSlotsPressed
  | AmmoMessage (m : CharacterAmmoMessage)
  | MaxAmmoAmountsPressed
  | PlayerClassSelected (player_class : Int)
  | SkinMessage (m : CharacterSkinSelectedMessage)
  | GearMessage (m : CharacterGearUnlockedMessage)
deriving DecidableEq, Repr

/-- `views::manage_save::inventory::SaveInventoryInteractionMessage`. -/
inductive SaveInventoryInteractionMessage (E : ExtTypes) where
  | Editor (m : E.IEMsg)

/-- `views::manage_save::currency::SaveCurrencyInteractionMessage`. -/
inductive SaveCurrencyInteractionMessage where
  | Money (money : Int)
  | Eridium (eridium : Int)
  | MaxMoneyPressed
  | MaxEridiumPressed
deriving DecidableEq, Repr

/-- `views::manage_save::vehicle::VehicleUnlockedMessage`. -/
inductive VehicleUnlockedMessage where
  | OutrunnerChassis (b : Bool)
  | OutrunnerParts (b : Bool)
  | OutrunnerSkins (b : Bool)
  | JetbeastChassis (b : Bool)
  | JetbeastParts (b : Bool)
  | JetbeastSkins (b : Bool)
  | TechnicalChassis (b : Bool)
  | TechnicalParts (b : Bool)
  | TechnicalSkins (b : Bool)
  | CycloneChassis (b : Bool)
  | CycloneParts (b : Bool)
  | CycloneSkins (b : Bool)
deriving DecidableEq, Repr

/-- `views::manage_save::vehicle::SaveVehicleInteractionMessage`. -/
inductive SaveVehicleInteractionMessage where
  | UnlockMessage (m : VehicleUnlockedMessage)
deriving DecidableEq, Repr

/-- `views::manage_save::ManageSaveInteractionMessage`. -/
inductive ManageSaveInteractionMessage (E : ExtTypes) where
  | TabBar (m : SaveTabBarInteractionMessage)
  | General (m : SaveGeneralInteractionMessage)
  | Character (m : SaveCharacterInteractionMessage)
  | Inventory (m : SaveInventoryInteractionMessage E)
  | Currency (m : SaveCurrencyInteractionMessage)
  | Vehicle (m : SaveVehicleInteractionMessage)
  | SaveFilePressed

/-- `views::manage_profile::main::ProfileTabBarInteractionMessage`. -/
inductive ProfileTabBarInteractionMessage where
  | General
  | Profile
  | Keys
  | Bank
  | Settings
deriving DecidableEq, Repr

/-- `views::manage_profile::general::ProfileGeneralInteractionMessage`. -/
inductive ProfileGeneralInteractionMessage where
  | ProfileTypeSelected (profile_type : Int)
deriving DecidableEq, Repr

/-- `views::manage_profile::profile::SkinUnlockedMessage`. -/
inductive SkinUnlockedMessage where
  | CharacterSkins (b : Bool)
  | CharacterHeads (b : Bool)
  | EchoThemes (b : Bool)
  | Emotes (b : Bool)
  | RoomDecorations (b : Bool)
  | WeaponSkins (b : Bool)
  | WeaponTrinkets (b : Bool)
deriving DecidableEq, Repr

/-- `views::manage_profile::profile::SduMessage`. -/
inductive SduMessage where
  | Bank (level : Int)
  | LostLoot (level : Int)
deriving DecidableEq, Repr

/-- `views::manage_profile::profile::GuardianRewardMessage`. -/
inductive GuardianRewardMessage where
  | Accuracy (r : Int)
  | ActionSkillCooldown (r : Int)
  | CriticalDamage (r : Int)
  | ElementalDamage (r : Int)
  | FFYLDuration (r : Int)
  | FFYLMovementSpeed (r : Int)
  | GrenadeDamage (r : Int)
  | GunDamage (r : Int)
  | GunFireRate (r : Int)
  | MaxHealth (r : Int)
  | MeleeDamage (r : Int)
  | RarityRate (r : Int)
  | RecoilReduction (r : Int)
  | ReloadSpeed (r : Int)
  | ShieldCapacity (r : Int)
  | ShieldRechargeDelay (r : Int)
  | ShieldRechargeRate (r : Int)
  | VehicleDamage (r : Int)
deriving DecidableEq, Repr

/-- `views::manage_profile::profile::ProfileInteractionMessage`. -/
inductive ProfileInteractionMessage where
  | GuardianRankTokens (tokens : Int)
  | ScienceLevelSelected (level : Int)
  | ScienceTokens (tokens : Int)
  | SkinMessage (m : SkinUnlockedMessage)
  | SduMessage (m : SduMessage)
  | MaxSduSlotsPressed
  | GuardianRewardMessage (m : GuardianRewardMessage)
  | MaxGuardianRewardsPressed
deriving DecidableEq, Repr

/-- `views::manage_profile::keys::ProfileKeysInteractionMessage`. -/
inductive ProfileKeysInteractionMessage where
  | GoldenKeys (n : Int)
  | DiamondKeys (n : Int)
  | VaultCard1Keys (n : Int)
  | VaultCard1Chests (n : Int)
  | VaultCard2Keys (n : Int)
  | VaultCard2Chests (n : Int)
  | VaultCard3Keys (n : Int)
  | VaultCard3Chests (n : Int)
  | MaxGoldenKeysPressed
  | MaxDiamondKeysPressed
  | MaxVaultCard1KeysPressed
  | MaxVaultCard1ChestsPressed
  | MaxVaultCard2KeysPressed
  | MaxVaultCard2ChestsPressed
  | MaxVaultCard3KeysPressed
  | MaxVaultCard3ChestsPressed
deriving DecidableEq, Repr

/-- `views::manage_profile::bank::ProfileBankInteractionMessage`. -/
inductive ProfileBankInteractionMessage (E : ExtTypes) where
  | Editor (m : E.IEMsg)

/-- `views::manage_profile::ManageProfileInteractionMessage`. -/
inductive ManageProfileInteractionMessage (E : ExtTypes) where
  | TabBar (m : ProfileTabBarInteractionMessage)
  | General (m : ProfileGeneralInteractionMessage)
  | Profile (m : ProfileInteractionMessage)
  | Keys (m : ProfileKeysInteractionMessage)
  | Bank (m : ProfileBankInteractionMessage E)
  | SaveProfilePressed

/-- `views::settings::SettingsInteractionMessage`. -/
inductive SettingsInteractionMessage where
  | OpenConfigDir
  | OpenConfigDirCompleted (r : MessageResult Unit)
  | OpenBackupDir
  | OpenBackupDirCompleted (r : MessageResult Unit)
  | ChangeBackupDir
  | ChangeBackupDirCompleted (r : MessageResult String)
  | OpenSavesDir
  | OpenSavesDirCompleted (r : MessageResult Unit)
  | ChangeSavesDir
  | ChangeSavesDirCompleted (r : MessageResult String)
  | DecreaseUIScale
  | IncreaseUIScale

/-- `InteractionMessage` from `bl3_ui.rs`. -/
inductive InteractionMessage (E : ExtTypes) where
  | ChooseSaveInteraction (m : ChooseSaveInteractionMessage)
  | ManageSaveInteraction (m : ManageSaveInteractionMessage E)
  | ManageProfileInteraction (m : ManageProfileInteractionMessage E)
  | SettingsInteraction (m : SettingsInteractionMessage)
  | LoadedFileSelected (f : Bl3FileType E)
  | RefreshSavesDirectory
  | Ignore

/-- `views::choose_save_directory::ChooseSaveMessage`. -/
inductive ChooseSaveMessage (E : ExtTypes) where
  | ChooseDirCompleted (r : MessageResult String)
  | FilesLoaded (r : MessageResult (String × List (Bl3FileType E)))

/-- `Bl3Message` from `bl3_ui.rs`, restricted to the variants whose handlers
touch the controller/pipeline/registry state (the startup, release-update and
config-save-completed variants only log or exit and are peripheral
collaborator plumbing per the spec). -/
inductive Bl3Message (E : ExtTypes) where
  | Interaction (m : InteractionMessage E)
  | ChooseSave (m : ChooseSaveMessage E)
  | SaveFileCompleted (r : MessageResult (Bl3Save E))
  | SaveProfileCompleted (r : MessageResult (Bl3Profile E))
  | FilesLoadedAfterSave (r : MessageResult (Bl3FileType E × List (Bl3FileType E)))
  | ClearNotification

/-! ### External collaborators -/

/-- `bl3_save_edit_core::bl3_save::sdu::SaveSduSlot`. -/
inductive SaveSduSlot where
  | Backpack
  | Sniper
  | Shotgun
  | Pistol
  | Grenade
  | Smg
  | Ar
  | Heavy
deriving DecidableEq, Repr

/-- `bl3_save_edit_core::bl3_save::ammo::AmmoPool`. -/
inductive AmmoPool where
  | Sniper
  | Shotgun
  | Pistol
  | Grenade
  | Smg
  | Ar
  | Heavy
deriving DecidableEq, Repr

/-- `bl3_save_edit_core::bl3_profile::sdu::ProfileSduSlot`. -/
inductive ProfileSduSlot where
  | Bank
  | LostLoot
deriving DecidableEq, Repr

/-- The state the external `state_mappers::map_loaded_file_to_state` may
touch.  Modelled from the spec: `select(file)` "copies the selected file's
authoritative model fields into the EditableViewState of the matching domain,
and switches ViewState"; in particular it does not touch the registry list,
the current selection pointer, the config or the notification. -/
structure MapTargets (E : ExtTypes) where
  manage_save_state : ManageSaveState E
  manage_profile_state : ManageProfileState E
  view_state : ViewState

/-- The operations of the external collaborators called by `update`.  The
state mappers and codec live outside `src/`; their signatures are modelled
from the spec: `Map` "deterministically appl[ies] every field of
EditableViewState onto the clone's model" (reading the view state, rewriting
only the clone it is given) and `Serialize` "hand[s] the clone to the external
codec to produce raw bytes"; the profile mapper additionally returns the
`guardian_data_injection_required` boolean.  The XP table
(`REQUIRED_XP_LIST`, a list of pairs whose first component is the XP required
for a level), `experience_to_level`, the `maximum()` functions and the random
GUID generator come from `bl3_save_edit_core` and are opaque parameters. -/
structure Env (E : ExtTypes) where
  genGuid : String
  sduMax : SaveSduSlot → Int
  ammoMax : AmmoPool → Int
  profileSduMax : ProfileSduSlot → Int
  requiredXpList : List (Int × Int)
  experienceToLevel : Int → Option Int
  mapAllStatesToSave : SaveViewState E → Bl3Save E → Except String (Bl3Save E)
  saveAsBytes : Bl3Save E → Except String (List Nat × Bl3Save E)
  mapAllStatesToProfile : ProfileViewState E → Bl3Profile E → Except String (Bool × Bl3Profile E)
  profileAsBytes : Bl3Profile E → Except String (List Nat × Bl3Profile E)
  mapLoadedFileToState : Bl3FileType E → MapTargets E → MapTargets E × Except String Unit
  itemEditorUpdateSave : E.IEMsg → E.IEState → Bl3Save E →
    E.IEState × Bl3Save E × Option Notification × Option E.IEMsg
  itemEditorUpdateProfile : E.IEMsg → E.IEState → Bl3Profile E →
    E.IEState × Bl3Profile E × Option Notification × Option E.IEMsg

/-- The asynchronous commands `update` can return (`Command::perform`
payloads); `none` at the call sites below models `Command::none()`. -/
inductive Cmd (E : ExtTypes) where
  | ChooseDir (initial : String)
  | LoadFilesInDirectory (dir : String)
  | SaveFile (backup_dir : String) (output_file : String) (output : List Nat)
      (current_file : Bl3Save E) (save_file : Bl3Save E)
  | SaveProfile (backup_dir : String) (saves_dir : String) (output_file : String)
      (output : List Nat) (current_file : Bl3Profile E) (profile : Bl3Profile E)
      (guardian_data_injection_required : Bool)
  | LoadFilesAfterSave (dir : String) (saved : Bl3FileType E)
  | SaveConfig (c : Bl3Config)
  | OpenDir (d : String)
  | ItemEditorSaveCmd (m : E.IEMsg)
  | ItemEditorBankCmd (m : E.IEMsg)

/-- The outcome of one `update` dispatch: the new state plus an optional
asynchronous command, or a Rust panic (which aborts the process). -/
inductive UpdateResult (E : ExtTypes) where
  | ok (s : Bl3Application E) (cmd : Option (Cmd E))
  | panicked (msg : String)

/-- The post-state of an `update` dispatch, when it did not panic. -/
def resultState {E : ExtTypes} : UpdateResult E → Option (Bl3Application E)
  | .ok s _ => some s
  | .panicked _ => none

/-- The command returned by an `update` dispatch, when it did not panic. -/
def resultCmd {E : ExtTypes} : UpdateResult E → Option (Cmd E)
  | .ok _ cmd => cmd
  | .panicked _ => none

/-- `i32::MAX`. -/
def i32Max : Int := 2147483647

/-- `format!("{:x}.sav", slot)`: lowercase hex of the `i32` bit pattern,
followed by the `.sav` extension. -/
def slotFilename (slot : Int) : String :=
  String.mk (Nat.toDigits 16 ((slot % ((2 : Int) ^ 32)).toNat)) ++ ".sav"

/-- `handle_ui_error` on `MessageResult<()>` (the `ErrorExt` impl in
`bl3_ui.rs`). -/
def handleUiErrorMR (message : String) (r : MessageResult Unit)
    (n : Option Notification) : Option Notification :=
  match r with
  | .Error e => some ⟨message ++ ": " ++ e ++ ".", .Negative⟩
  | .Success _ => n

/-! ### The per-arm state transforms of `Bl3Application::update`

Each function below mirrors one `match` arm (or one mutable borrow) of the
source, in source order. -/

/-- `ManageSaveInteractionMessage::TabBar` arm: target tab view. -/
def saveTabView : SaveTabBarInteractionMessage → SaveTabBarView
  | .General => .General
  | .Character => .Character
  | .Inventory => .Inventory
  | .Currency => .Currency
  | .Vehicle => .Vehicle
  | .Settings => .Settings

/-- `ManageProfileInteractionMessage::TabBar` arm: target tab view. -/
def profileTabView : ProfileTabBarInteractionMessage → ProfileTabBarView
  | .General => .General
  | .Profile => .Profile
  | .Keys => .Keys
  | .Bank => .Bank
  | .Settings => .Settings

/-- `SaveCharacterInteractionMessage::SduMessage` arm (via the
`sdu_unlocker` borrow). -/
def sduStep (m : CharacterSduMessage) (u : SduUnlocker) : SduUnlocker :=
  match m with
  | .Backpack level => { u with backpack := level }
  | .Sniper level => { u with sniper := level }
  | .Shotgun level => { u with shotgun := level }
  | .Pistol level => { u with pistol := level }
  | .Grenade level => { u with grenade := level }
  | .Smg level => { u with smg := level }
  | .AssaultRifle level => { u with assault_rifle := level }
  | .Heavy level => { u with heavy := level }

/-- `SaveCharacterInteractionMessage::AmmoMessage` arm (via the
`ammo_setter` borrow). -/
def ammoStep (m : CharacterAmmoMessage) (a : AmmoSetter) : AmmoSetter :=
  match m with
  | .Sniper amount => { a with sniper := amount }
  | .Shotgun amount => { a with shotgun := amount }
  | .Pistol amount => { a with pistol := amount }
  | .Grenade amount => { a with grenade := amount }
  | .Smg amount => { a with smg := amount }
  | .AssaultRifle amount => { a with assault_rifle := amount }
  | .Heavy amount => { a with heavy := amount }

/-- `SaveCharacterInteractionMessage::SkinMessage` arm (via the
`skin_selectors` borrow). -/
def skinStep (m : CharacterSkinSelectedMessage) (sk : SkinSelectors) : SkinSelectors :=
  match m with
  | .HeadSkin selected => { sk with head_skin := selected }
  | .CharacterSkin selected => { sk with character_skin := selected }
  | .EchoTheme selected => { sk with echo_theme := selected }

/-- `SaveCharacterInteractionMessage::GearMessage` arm (via the
`gear_unlocker` borrow). -/
def gearStep (m : CharacterGearUnlockedMessage) (g : GearUnlocker) : GearUnlocker :=
  match m with
  | .Grenade b => { g with grenade := b }
  | .Shield b => { g with shield := b }
  | .Weapon1 b => { g with weapon_1 := b }
  | .Weapon2 b => { g with weapon_2 := b }
  | .Weapon3 b => { g with weapon_3 := b }
  | .Weapon4 b => { g with weapon_4 := b }
  | .Artifact b => { g with artifact := b }
  | .ClassMod b => { g with class_mod := b }

/-- `ManageSaveInteractionMessage::Character` arms, acting on the
`character_state` borrow.  `Level` indexes `REQUIRED_XP_LIST[level - 1][0]`,
which panics when out of range (`none`). -/
def characterStep {E : ExtTypes} (env : Env E) (m : SaveCharacterInteractionMessage)
    (cs : CharacterState) : Option CharacterState :=
  match m with
  | .Name name_input => some { cs with name_input := name_input }
  | .Level level =>
      if 0 < level then
        match env.requiredXpList.get? (level.toNat - 1) with
        | some entry =>
            some { cs with level_input := level, experience_points_input := entry.1 }
        | none => none
      else
        some { cs with level_input := level, experience_points_input := 0 }
  | .ExperiencePoints xp =>
      some { cs with experience_points_input := xp,
                     level_input := (env.experienceToLevel xp).getD 1 }
  | .AbilityPoints points => some { cs with ability_points_input := points }
  | .SduMessage sm => some { cs with sdu_unlocker := sduStep sm cs.sdu_unlocker }
  | .MaxSduSlotsPressed =>
      some { cs with sdu_unlocker :=
        { backpack := env.sduMax .Backpack
          sniper := env.sduMax .Sniper
          shotgun := env.sduMax .Shotgun
          pistol := env.sduMax .Pistol
          grenade := env.sduMax .Grenade
          smg := env.sduMax .Smg
          assault_rifle := env.sduMax .Ar
          heavy := env.sduMax .Heavy } }
  | .AmmoMessage am => some { cs with ammo_setter := ammoStep am cs.ammo_setter }
  | .MaxAmmoAmountsPressed =>
      some { cs with ammo_setter :=
        { sniper := env.ammoMax .Sniper
          shotgun := env.ammoMax .Shotgun
          pistol := env.ammoMax .Pistol
          grenade := env.ammoMax .Grenade
          smg := env.ammoMax .Smg
          assault_rifle := env.ammoMax .Ar
          heavy := env.ammoMax .Heavy } }
  | .PlayerClassSelected player_class =>
      some { cs with player_class_selected_class := player_class }
  | .SkinMessage skm => some { cs with skin_selectors := skinStep skm cs.skin_selectors }
  | .GearMessage gm => some { cs with gear_unlocker := gearStep gm cs.gear_unlocker }

/-- `ManageSaveInteractionMessage::Currency` arms. -/
def currencyStep (m : SaveCurrencyInteractionMessage) (c : CurrencyState) : CurrencyState :=
  match m with
  | .Money money => { c with money_input := money }
  | .Eridium eridium => { c with eridium_input := eridium }
  | .MaxMoneyPressed => { c with money_input := i32Max }
  | .MaxEridiumPressed => { c with eridium_input := i32Max }

/-- `SaveVehicleInteractionMessage::UnlockMessage` arms (via the `unlocker`
borrow). -/
def vehicleStep (m : VehicleUnlockedMessage) (v : VehicleUnlocker) : VehicleUnlocker :=
  match m with
  | .OutrunnerChassis b => { v with outrunner_chassis := b }
  | .OutrunnerParts b => { v with outrunner_parts := b }
  | .OutrunnerSkins b => { v with outrunner_skins := b }
  | .JetbeastChassis b => { v with jetbeast_chassis := b }
  | .JetbeastParts b => { v with jetbeast_parts := b }
  | .JetbeastSkins b => { v with jetbeast_skins := b }
  | .TechnicalChassis b => { v with technical_chassis := b }
  | .TechnicalParts b => { v with technical_parts := b }
  | .TechnicalSkins b => { v with technical_skins := b }
  | .CycloneChassis b => { v with cyclone_chassis := b }
  | .CycloneParts b => { v with cyclone_parts := b }
  | .CycloneSkins b => { v with cyclone_skins := b }

/-- `ProfileInteractionMessage::SkinMessage` arms (via the `skin_unlocker`
borrow). -/
def skinUnlockedStep (m : SkinUnlockedMessage) (sk : ProfileSkinUnlocker) : ProfileSkinUnlocker :=
  match m with
  | .CharacterSkins b => { sk with character_skins := b }
  | .CharacterHeads b => { sk with character_heads := b }
  | .EchoThemes b => { sk with echo_themes := b }
  | .Emotes b => { sk with emotes := b }
  | .RoomDecorations b => { sk with room_decorations := b }
  | .WeaponSkins b => { sk with weapon_skins := b }
  | .WeaponTrinkets b => { sk with weapon_trinkets := b }

/-- `ProfileInteractionMessage::SduMessage` arms (via the `sdu_unlocker`
borrow). -/
def profileSduStep (m : SduMessage) (u : ProfileSduUnlocker) : ProfileSduUnlocker :=
  match m with
  | .Bank level => { u with bank := level }
  | .LostLoot level => { u with lost_loot := level }

/-- `ProfileInteractionMessage::GuardianRewardMessage` arms (via the
`guardian_reward_unlocker` borrow). -/
def guardianRewardStep (m : GuardianRewardMessage) (g : GuardianRewardUnlocker) :
    GuardianRewardUnlocker :=
  match m with
  | .Accuracy r => { g with accuracy := r }
  | .ActionSkillCooldown r => { g with action_skill_cooldown := r }
  | .CriticalDamage r => { g with critical_damage := r }
  | .ElementalDamage r => { g with elemental_damage := r }
  | .FFYLDuration r => { g with ffyl_duration := r }
  | .FFYLMovementSpeed r => { g with ffyl_movement_speed := r }
  | .GrenadeDamage r => { g with grenade_damage := r }
  | .GunDamage r => { g with gun_damage := r }
  | .GunFireRate r => { g with gun_fire_rate := r }
  | .MaxHealth r => { g with max_health := r }
  | .MeleeDamage r => { g with melee_damage := r }
  | .RarityRate r => { g with rarity_rate := r }
  | .RecoilReduction r => { g with recoil_reduction := r }
  | .ReloadSpeed r => { g with reload_speed := r }
  | .ShieldCapacity r => { g with shield_capacity := r }
  | .ShieldRechargeDelay r => { g with shield_recharge_delay := r }
  | .ShieldRechargeRate r => { g with shield_recharge_rate := r }
  | .VehicleDamage r => { g with vehicle_damage := r }

/-- `ManageProfileInteractionMessage::Profile` arms, acting on the
`profile_state` borrow. -/
def profileStep {E : ExtTypes} (env : Env E) (m : ProfileInteractionMessage)
    (ps : ProfileState) : ProfileState :=
  match m with
  | .GuardianRankTokens tokens => { ps with guardian_rank_tokens_input := tokens }
  | .ScienceLevelSelected level => { ps with science_level_selected := level }
  | .ScienceTokens tokens => { ps with science_tokens_input := tokens }
  | .SkinMessage sm => { ps with skin_unlocker := skinUnlockedStep sm ps.skin_unlocker }
  | .SduMessage sm => { ps with sdu_unlocker := profileSduStep sm ps.sdu_unlocker }
  | .MaxSduSlotsPressed =>
      { ps with sdu_unlocker :=
        { bank := env.profileSduMax .Bank, lost_loot := env.profileSduMax .LostLoot } }
  | .GuardianRewardMessage gm =>
      { ps with guardian_reward_unlocker := guardianRewardStep gm ps.guardian_reward_unlocker }
  | .MaxGuardianRewardsPressed =>
      { ps with guardian_reward_unlocker :=
        { accuracy := i32Max, action_skill_cooldown := i32Max, critical_damage := i32Max,
          elemental_damage := i32Max, ffyl_duration := i32Max, ffyl_movement_speed := i32Max,
          grenade_damage := i32Max, gun_damage := i32Max, gun_fire_rate := i32Max,
          max_health := i32Max, melee_damage := i32Max, rarity_rate := i32Max,
          recoil_reduction := i32Max, reload_speed := i32Max, shield_capacity := i32Max,
          shield_recharge_delay := i32Max, shield_recharge_rate := i32Max,
          vehicle_damage := i32Max } }

/-- `ManageProfileInteractionMessage::Keys` arms, acting on the `keys_state`
borrow. -/
def keysStep (m : ProfileKeysInteractionMessage) (k : KeysState) : KeysState :=
  match m with
  | .GoldenKeys n => { k with golden_keys_input := n }
  | .DiamondKeys n => { k with diamond_keys_input := n }
  | .VaultCard1Keys n => { k with vault_card_1_keys_input := n }
  | .VaultCard1Chests n => { k with vault_card_1_chests_input := n }
  | .VaultCard2Keys n => { k with vault_card_2_keys_input := n }
  | .VaultCard2Chests n => { k with vault_card_2_chests_input := n }
  | .VaultCard3Keys n => { k with vault_card_3_keys_input := n }
  | .VaultCard3Chests n => { k with vault_card_3_chests_input := n }
  | .MaxGoldenKeysPressed => { k with golden_keys_input := i32Max }
  | .MaxDiamondKeysPressed => { k with diamond_keys_input := i32Max }
  | .MaxVaultCard1KeysPressed => { k with vault_card_1_keys_input := i32Max }
  | .MaxVaultCard1ChestsPressed => { k with vault_card_1_chests_input := i32Max }
  | .MaxVaultCard2KeysPressed => { k with vault_card_2_keys_input := i32Max }
  | .MaxVaultCard2ChestsPressed => { k with vault_card_2_chests_input := i32Max }
  | .MaxVaultCard3KeysPressed => { k with vault_card_3_keys_input := i32Max }
  | .MaxVaultCard3ChestsPressed => { k with vault_card_3_chests_input := i32Max }

/-- `ManageSaveInteractionMessage::SaveFilePressed`: clone the current file,
map the editable view state onto the clone, serialize the clone; either
failure sets a Negative notification and returns no command; success returns
the asynchronous backup-and-write command.  The authoritative
`manage_save_state.current_file` is only read. -/
def saveFilePressedUpdate {E : ExtTypes} (env : Env E) (s : Bl3Application E) :
    Bl3Application E × Option (Cmd E) :=
  let current_file := s.manage_save_state.current_file
  match env.mapAllStatesToSave s.manage_save_state.save_view_state current_file with
  | .error e =>
      ({ s with notification := some ⟨"Failed to save file: " ++ e, .Negative⟩ }, none)
  | .ok mapped_file =>
      let output_file := pathJoin s.config.saves_dir s.manage_save_state.current_file.file_name
      match env.saveAsBytes mapped_file with
      | .ok out =>
          (s, some (.SaveFile s.config.backup_dir output_file out.1
            s.manage_save_state.current_file out.2))
      | .error e =>
          ({ s with notification := some ⟨"Failed to save file: " ++ e, .Negative⟩ }, none)

/-- `ManageProfileInteractionMessage::SaveProfilePressed`, analogous to the
save commit, with the extra `guardian_data_injection_required` boolean
returned by the mapper and passed to the write command. -/
def saveProfilePressedUpdate {E : ExtTypes} (env : Env E) (s : Bl3Application E) :
    Bl3Application E × Option (Cmd E) :=
  let current_file := s.manage_profile_state.current_file
  match env.mapAllStatesToProfile s.manage_profile_state.profile_view_state current_file with
  | .error e =>
      ({ s with notification := some ⟨"Failed to save profile: " ++ e, .Negative⟩ }, none)
  | .ok mapped =>
      let output_file := pathJoin s.config.saves_dir s.manage_profile_state.current_file.file_name
      match env.profileAsBytes mapped.2 with
      | .ok out =>
          (s, some (.SaveProfile s.config.backup_dir s.config.saves_dir output_file out.1
            s.manage_profile_state.current_file out.2 mapped.1))
      | .error e =>
          ({ s with notification := some ⟨"Failed to save file: " ++ e, .Negative⟩ }, none)

/-- `SaveInventoryInteractionMessage::Editor`: the external item editor
updates its own state and the current file (both passed `&mut`), sets the
notification to whatever it returned, and may yield a follow-up command. -/
def inventoryEditorUpdate {E : ExtTypes} (env : Env E) (m : E.IEMsg)
    (s : Bl3Application E) : Bl3Application E × Option (Cmd E) :=
  let r := env.itemEditorUpdateSave m
    s.manage_save_state.save_view_state.inventory_state.item_editor_state
    s.manage_save_state.current_file
  ({ s with
      manage_save_state.save_view_state.inventory_state.item_editor_state := r.1,
      manage_save_state.current_file := r.2.1,
      notification := r.2.2.1 },
   (r.2.2.2).map .ItemEditorSaveCmd)

/-- `ProfileBankInteractionMessage::Editor`, analogous for the profile bank. -/
def bankEditorUpdate {E : ExtTypes} (env : Env E) (m : E.IEMsg)
    (s : Bl3Application E) : Bl3Application E × Option (Cmd E) :=
  let r := env.itemEditorUpdateProfile m
    s.manage_profile_state.profile_view_state.bank_state.item_editor_state
    s.manage_profile_state.current_file
  ({ s with
      manage_profile_state.profile_view_state.bank_state.item_editor_state := r.1,
      manage_profile_state.current_file := r.2.1,
      notification := r.2.2.1 },
   (r.2.2.2).map .ItemEditorBankCmd)

/-- `InteractionMessage::LoadedFileSelected`: store the selection, then seed
the editable mirror from it via the external state mapper, reporting a mapper
error through `handle_ui_error`. -/
def loadedFileSelectedUpdate {E : ExtTypes} (env : Env E) (f : Bl3FileType E)
    (s : Bl3Application E) : Bl3Application E × Option (Cmd E) :=
  let s := { s with loaded_files_selected := f }
  let tr := env.mapLoadedFileToState s.loaded_files_selected
    ⟨s.manage_save_state, s.manage_profile_state, s.view_state⟩
  ({ s with
      manage_save_state := tr.1.manage_save_state,
      manage_profile_state := tr.1.manage_profile_state,
      view_state := tr.1.view_state,
      notification := handleUiError "Failed to map loaded file to editor" tr.2 s.notification },
   none)

/-- `InteractionMessage::SettingsInteraction` arms. -/
def settingsUpdate {E : ExtTypes} (env : Env E) (m : SettingsInteractionMessage)
    (s : Bl3Application E) : Bl3Application E × Option (Cmd E) :=
  match m with
  | .OpenConfigDir => (s, some (.OpenDir s.config.config_dir))
  | .OpenConfigDirCompleted r =>
      ({ s with notification := handleUiErrorMR "Failed to open config folder" r s.notification },
       none)
  | .OpenBackupDir => (s, some (.OpenDir s.config.backup_dir))
  | .OpenBackupDirCompleted r =>
      ({ s with notification := handleUiErrorMR "Failed to open backups folder" r s.notification },
       none)
  | .ChangeBackupDir =>
      ({ s with settings_state.choose_backup_dir_window_open := true },
       some (.ChooseDir s.config.backup_dir))
  | .ChangeBackupDirCompleted r =>
      let s := { s with settings_state.choose_backup_dir_window_open := false }
      match r with
      | .Success dir =>
          let s := { s with config := s.config.set_backup_dir dir }
          let s := { s with settings_state.backup_dir_input := s.config.backup_dir }
          (s, some (.SaveConfig s.config))
      | .Error e =>
          ({ s with
              notification := some ⟨"Failed to choose backups folder: " ++ e, .Negative⟩ },
           none)
  | .OpenSavesDir => (s, some (.OpenDir s.config.saves_dir))
  | .OpenSavesDirCompleted r =>
      ({ s with notification := handleUiErrorMR "Failed to open saves folder" r s.notification },
       none)
  | .ChangeSavesDir =>
      ({ s with settings_state.choose_saves_dir_window_open := true },
       some (.ChooseDir s.config.saves_dir))
  | .ChangeSavesDirCompleted r =>
      let s := { s with settings_state.choose_saves_dir_window_open := false }
      match r with
      | .Success dir =>
          ({ s with view_state := .Loading }, some (.LoadFilesInDirectory dir))
      | .Error e =>
          ({ s with
              notification := some ⟨"Failed to choose saves folder: " ++ e, .Negative⟩ },
           none)
  | .DecreaseUIScale =>
      if 1 / 2 ≤ s.settings_state.ui_scale_factor then
        let f := f64sub s.settings_state.ui_scale_factor c005
        let s := { s with settings_state.ui_scale_factor := f }
        let s := { s with config := s.config.set_ui_scale_factor f }
        (s, some (.SaveConfig s.config))
      else (s, none)
  | .IncreaseUIScale =>
      if s.settings_state.ui_scale_factor < 2 then
        let f := f64add s.settings_state.ui_scale_factor c005
        let s := { s with settings_state.ui_scale_factor := f }
        let s := { s with config := s.config.set_ui_scale_factor f }
        (s, some (.SaveConfig s.config))
      else (s, none)

/-- The `Bl3Message::Interaction` arm of `Bl3Application::update`: the
notification is cleared first, then the message-specific handler runs. -/
def interactionUpdate {E : ExtTypes} (env : Env E) (m : InteractionMessage E)
    (s : Bl3Application E) : UpdateResult E :=
  let s := { s with notification := none }
  match m with
  | .ChooseSaveInteraction .ChooseDirPressed =>
      .ok { s with choose_save_directory_state.choose_dir_window_open := true }
        (some (.ChooseDir s.config.saves_dir))
  | .ManageSaveInteraction ms =>
      match ms with
      | .TabBar tb =>
          .ok { s with view_state := .ManageSave (.TabBar (saveTabView tb)) } none
      | .General gm =>
          match gm with
          | .Guid guid =>
              .ok { s with manage_save_state.save_view_state.general_state.guid_input := guid }
                none
          | .Slot slot =>
              let filename := slotFilename slot
              let s := { s with manage_save_state.save_view_state.general_state.slot_input := slot }
              let s := { s with
                manage_save_state.save_view_state.general_state.filename_input := filename }
              .ok { s with manage_save_state.current_file.file_name := filename } none
          | .GenerateGuidPressed =>
              .ok { s with
                manage_save_state.save_view_state.general_state.guid_input := env.genGuid } none
          | .SaveTypeSelected save_type =>
              .ok { s with
                manage_save_state.save_view_state.general_state.save_type_selected := save_type }
                none
      | .Character cm =>
          match characterStep env cm s.manage_save_state.save_view_state.character_state with
          | some cs =>
              .ok { s with manage_save_state.save_view_state.character_state := cs } none
          | none => .panicked "index out of bounds"
      | .Inventory (.Editor iem) =>
          let p := inventoryEditorUpdate env iem s
          .ok p.1 p.2
      | .Currency cm =>
          let c := currencyStep cm s.manage_save_state.save_view_state.currency_state
          .ok { s with manage_save_state.save_view_state.currency_state := c } none
      | .Vehicle (.UnlockMessage vm) =>
          let v := vehicleStep vm s.manage_save_state.save_view_state.vehicle_state.unlocker
          .ok { s with manage_save_state.save_view_state.vehicle_state.unlocker := v } none
      | .SaveFilePressed =>
          let p := saveFilePressedUpdate env s
          .ok p.1 p.2
  | .ManageProfileInteraction mp =>
      match mp with
      | .TabBar tb =>
          .ok { s with view_state := .ManageProfile (.TabBar (profileTabView tb)) } none
      | .General (.ProfileTypeSelected profile_type) =>
          let g : ProfileGeneralState := { profile_type_selected := profile_type }
          .ok { s with manage_profile_state.profile_view_state.general_state := g } none
      | .Profile pm =>
          let ps := profileStep env pm s.manage_profile_state.profile_view_state.profile_state
          .ok { s with manage_profile_state.profile_view_state.profile_state := ps } none
      | .Keys km =>
          let ks := keysStep km s.manage_profile_state.profile_view_state.keys_state
          .ok { s with manage_profile_state.profile_view_state.keys_state := ks } none
      | .Bank (.Editor iem) =>
          let p := bankEditorUpdate env iem s
          .ok p.1 p.2
      | .SaveProfilePressed =>
          let p := saveProfilePressedUpdate env s
          .ok p.1 p.2
  | .SettingsInteraction sm =>
      let p := settingsUpdate env sm s
      .ok p.1 p.2
  | .LoadedFileSelected f =>
      let p := loadedFileSelectedUpdate env f s
      .ok p.1 p.2
  | .RefreshSavesDirectory =>
      .ok { s with view_state := .Loading }
        (some (.LoadFilesInDirectory s.config.saves_dir))
  | .Ignore => .ok s none

/-- `ChooseSaveMessage::FilesLoaded`: on success, sort the scanned files,
store them, select the first (`expect` panics on an empty list), seed the
editable mirror, persist the directory into the config; on error, return to
the directory chooser with a Negative notification. -/
def filesLoadedUpdate {E : ExtTypes} (env : Env E)
    (res : MessageResult (String × List (Bl3FileType E))) (s : Bl3Application E) :
    UpdateResult E :=
  match res with
  | .Success dirFiles =>
      let files := sortFiles dirFiles.2
      let s := { s with loaded_files := files }
      match files with
      | [] => .panicked "loaded_files was empty"
      | f :: _ =>
          let s := { s with loaded_files_selected := f }
          let tr := env.mapLoadedFileToState s.loaded_files_selected
            ⟨s.manage_save_state, s.manage_profile_state, s.view_state⟩
          let s := { s with
            manage_save_state := tr.1.manage_save_state,
            manage_profile_state := tr.1.manage_profile_state,
            view_state := tr.1.view_state,
            notification :=
              handleUiError "Failed to map loaded file to editor" tr.2 s.notification }
          let s := { s with config := s.config.set_saves_dir dirFiles.1 }
          let s := { s with settings_state.saves_dir_input := s.config.saves_dir }
          .ok s (some (.SaveConfig s.config))
  | .Error e =>
      .ok { s with
              view_state := .ChooseSaveDirectory,
              notification := some ⟨"Failed to load save folder: " ++ e, .Negative⟩ }
        none

/-- `ChooseSaveMessage::ChooseDirCompleted`. -/
def chooseDirCompletedUpdate {E : ExtTypes} (res : MessageResult String)
    (s : Bl3Application E) : UpdateResult E :=
  let s := { s with choose_save_directory_state.choose_dir_window_open := false }
  match res with
  | .Success dir =>
      .ok { s with view_state := .Loading } (some (.LoadFilesInDirectory dir))
  | .Error e =>
      .ok { s with notification := some ⟨"Failed to choose saves folder: " ++ e, .Negative⟩ }
        none

/-- `Bl3Message::SaveFileCompleted`: on success, raise the Positive
notification, enter the reloading state, rebuild the `Bl3FileType` from the
returned save's header (panicking on a non-save header) and trigger the
after-save directory reload; on error, raise a Negative notification. -/
def saveFileCompletedUpdate {E : ExtTypes} (res : MessageResult (Bl3Save E))
    (s : Bl3Application E) : UpdateResult E :=
  match res with
  | .Success save =>
      let s := { s with
        notification := some ⟨"Successfully saved file!", .Positive⟩,
        is_reloading_saves := true }
      match save.header_type with
      | .PcSave =>
          .ok s (some (.LoadFilesAfterSave s.config.saves_dir (.PcSave save)))
      | .Ps4Save =>
          .ok s (some (.LoadFilesAfterSave s.config.saves_dir (.Ps4Save save)))
      | _ => .panicked "Unexpected Bl3FileType when reloading save"
  | .Error e =>
      .ok { s with notification := some ⟨"Failed to save file: " ++ e, .Negative⟩ } none

/-- `Bl3Message::SaveProfileCompleted`, analogous for profiles. -/
def saveProfileCompletedUpdate {E : ExtTypes} (res : MessageResult (Bl3Profile E))
    (s : Bl3Application E) : UpdateResult E :=
  match res with
  | .Success profile =>
      let s := { s with
        notification := some ⟨"Successfully saved profile!", .Positive⟩,
        is_reloading_saves := true }
      match profile.header_type with
      | .PcProfile =>
          .ok s (some (.LoadFilesAfterSave s.config.saves_dir (.PcProfile profile)))
      | .Ps4Profile =>
          .ok s (some (.LoadFilesAfterSave s.config.saves_dir (.Ps4Profile profile)))
      | _ => .panicked "Unexpected Bl3FileType when reloading profile"
  | .Error e =>
      .ok { s with notification := some ⟨"Failed to save profile: " ++ e, .Negative⟩ } none

/-- `Bl3Message::FilesLoadedAfterSave`: on success, sort and store the files,
reselect the entry equal to the just-written file when present (re-seeding
the mirror only for profiles), otherwise select the first entry (`expect`
panics on an empty list) and re-seed the mirror; on error, return to the
directory chooser with a Negative notification.  All non-panicking paths
clear `is_reloading_saves`. -/
def filesLoadedAfterSaveUpdate {E : ExtTypes} (env : Env E)
    (res : MessageResult (Bl3FileType E × List (Bl3FileType E))) (s : Bl3Application E) :
    UpdateResult E :=
  match res with
  | .Success savedFiles =>
      let saved_file := savedFiles.1
      let files := sortFiles savedFiles.2
      let s := { s with loaded_files := files }
      match files.find? (fun f => f.structEq saved_file) with
      | some selected_file =>
          let s := { s with loaded_files_selected := selected_file }
          match selected_file with
          | .PcProfile _ | .Ps4Profile _ =>
              let tr := env.mapLoadedFileToState s.loaded_files_selected
                ⟨s.manage_save_state, s.manage_profile_state, s.view_state⟩
              let s := { s with
                manage_save_state := tr.1.manage_save_state,
                manage_profile_state := tr.1.manage_profile_state,
                view_state := tr.1.view_state,
                notification :=
                  handleUiError "Failed to map loaded file to editor" tr.2 s.notification }
              .ok { s with is_reloading_saves := false } none
          | _ => .ok { s with is_reloading_saves := false } none
      | none =>
          match files with
          | [] => .panicked "loaded_files was empty"
          | f :: _ =>
              let s := { s with loaded_files_selected := f }
              let tr := env.mapLoadedFileToState s.loaded_files_selected
                ⟨s.manage_save_state, s.manage_profile_state, s.view_state⟩
              let s := { s with
                manage_save_state := tr.1.manage_save_state,
                manage_profile_state := tr.1.manage_profile_state,
                view_state := tr.1.view_state,
                notification :=
                  handleUiError "Failed to map loaded file to editor" tr.2 s.notification }
              .ok { s with is_reloading_saves := false } none
  | .Error e =>
      .ok { s with
              view_state := .ChooseSaveDirectory,
              notification := some ⟨"Failed to load save folder: " ++ e, .Negative⟩,
              is_reloading_saves := false }
        none

/-- `Bl3Application::update`, over the embedded message variants. -/
def bl3Update {E : ExtTypes} (env : Env E) (m : Bl3Message E) (s : Bl3Application E) :
    UpdateResult E :=
  match m with
  | .Interaction im => interactionUpdate env im s
  | .ChooseSave (.ChooseDirCompleted r) => chooseDirCompletedUpdate r s
  | .ChooseSave (.FilesLoaded r) => filesLoadedUpdate env r s
  | .SaveFileCompleted r => saveFileCompletedUpdate r s
  | .SaveProfileCompleted r => saveProfileCompletedUpdate r s
  | .FilesLoadedAfterSave r => filesLoadedAfterSaveUpdate env r s
  | .ClearNotification => .ok { s with notification := none } none

/-! ### Field-edit classification (for the edit/commit separation claims) -/

/-- The interaction messages that edit fields of the editable view state
(name, level, experience, currency, SDU, ammo, skin, gear, vehicle, guardian
and key inputs, toggle and selection fields).  Tab-bar navigation, the commit
buttons, the external item-editor passthrough, file selection and refresh are
not field edits. -/
def InteractionMessage.isFieldEdit {E : ExtTypes} : InteractionMessage E → Bool
  | .ManageSaveInteraction (.General _) => true
  | .ManageSaveInteraction (.Character _) => true
  | .ManageSaveInteraction (.Currency _) => true
  | .ManageSaveInteraction (.Vehicle _) => true
  | .ManageProfileInteraction (.General _) => true
  | .ManageProfileInteraction (.Profile _) => true
  | .ManageProfileInteraction (.Keys _) => true
  | _ => false

/-- The one field-edit message that also writes into the authoritative file:
`SaveGeneralInteractionMessage::Slot`. -/
def InteractionMessage.isSlotEdit {E : ExtTypes} : InteractionMessage E → Bool
  | .ManageSaveInteraction (.General (.Slot _)) => true
  | _ => false

/-! ### Scale-message iteration (for the UI-scale bound claim) -/

/-- `true` = `IncreaseUIScale`, `false` = `DecreaseUIScale`. -/
def scaleMsgOf : Bool → SettingsInteractionMessage
  | true => .IncreaseUIScale
  | false => .DecreaseUIScale

/-- One scale message through the controller, threading the post-state (the
scale handlers never panic; the panic branch is dead). -/
def scaleStep {E : ExtTypes} (env : Env E) (s : Bl3Application E) (b : Bool) :
    Bl3Application E :=
  match interactionUpdate env (.SettingsInteraction (scaleMsgOf b)) s with
  | .ok st' _ => st'
  | .panicked _ => s

/-- Feed a sequence of scale messages through the controller. -/
def runScaleMessages {E : ExtTypes} (env : Env E) (msgs : List Bool)
    (s : Bl3Application E) : Bl3Application E :=
  msgs.foldl (scaleStep env) s

/-- The invariant interval the scale factor actually stays in: the decrease
guard `>= 0.50` admits one step below 0.50 (to the double 0.5 - 0.05), and
rounding lets an accepted increase overshoot 2.0 by just over 0.05. -/
def scaleInv (q : ℚ) : Prop := 449 / 1000 ≤ q ∧ q ≤ 2051 / 1000

/-! ### Concrete instantiation used by witnesses and counterexamples -/

/-- All external types instantiated at `Unit`. -/
def E0 : ExtTypes := { Model := Unit, IEState := Unit, IEMsg := Unit }

def cs0 : CharacterState :=
  { name_input := "", level_input := 1, experience_points_input := 0,
    ability_points_input := 0,
    sdu_unlocker := ⟨0, 0, 0, 0, 0, 0, 0, 0⟩,
    ammo_setter := ⟨0, 0, 0, 0, 0, 0, 0⟩,
    player_class_selected_class := 0,
    skin_selectors := ⟨0, 0, 0⟩,
    gear_unlocker := ⟨false, false, false, false, false, false, false, false⟩ }

def svs0 : SaveViewState E0 :=
  { general_state := ⟨"", 1, "1.sav", 0⟩,
    character_state := cs0,
    inventory_state := ⟨()⟩,
    currency_state := ⟨0, 0⟩,
    vehicle_state := ⟨⟨false, false, false, false, false, false, false, false, false,
      false, false, false⟩⟩ }

def pvs0 : ProfileViewState E0 :=
  { general_state := ⟨0⟩,
    profile_state :=
      { guardian_rank_tokens_input := 0, science_level_selected := 0,
        science_tokens_input := 0,
        skin_unlocker := ⟨false, false, false, false, false, false, false⟩,
        sdu_unlocker := ⟨0, 0⟩,
        guardian_reward_unlocker :=
          ⟨0, 0, 0, 0, 0, 0, 0, 0, 0, 0, 0, 0, 0, 0, 0, 0, 0, 0⟩ },
    keys_state := ⟨0, 0, 0, 0, 0, 0, 0, 0⟩,
    bank_state := ⟨()⟩ }

def save0 : Bl3Save E0 := { header_type := .PcSave, file_name := "old.sav", model := () }

def profile0 : Bl3Profile E0 := { header_type := .PcProfile, file_name := "prof.sav", model := () }

def env0 : Env E0 :=
  { genGuid := "guid",
    sduMax := fun _ => 10,
    ammoMax := fun _ => 1000,
    profileSduMax := fun _ => 8,
    requiredXpList := [(0, 0), (358, 0)],
    experienceToLevel := fun _ => some 2,
    mapAllStatesToSave := fun _ f => .ok f,
    saveAsBytes := fun f => .ok ([0], f),
    mapAllStatesToProfile := fun _ f => .ok (false, f),
    profileAsBytes := fun f => .ok ([0], f),
    mapLoadedFileToState := fun _ t => (t, .ok ()),
    itemEditorUpdateSave := fun _ st f => (st, f, none, none),
    itemEditorUpdateProfile := fun _ st f => (st, f, none, none) }

/-- A collaborator environment whose `Map` step always fails. -/
def envMapFail : Env E0 :=
  { env0 with mapAllStatesToSave := fun _ _ => .error "bad map" }

def app0 : Bl3Application E0 :=
  { config :=
      { saves_dir := "saves", backup_dir := "backups", config_dir := "config",
        ui_scale_factor := 1 },
    view_state := .ManageSave (.TabBar .General),
    choose_save_directory_state := ⟨false⟩,
    manage_save_state := { save_view_state := svs0, current_file := save0 },
    manage_profile_state := { profile_view_state := pvs0, current_file := profile0 },
    loaded_files_selected := .PcSave save0,
    loaded_files := [.PcSave save0],
    notification := none,
    is_reloading_saves := false,
    settings_state :=
      { config_dir_input := "config", backup_dir_input := "backups",
        saves_dir_input := "saves", ui_scale_factor := 1,
        choose_backup_dir_window_open := false,
        choose_saves_dir_window_open := false } }

def fileA : Bl3FileType E0 :=
  .PcSave { header_type := .PcSave, file_name := "a.sav", model := () }

def fileB : Bl3FileType E0 :=
  .PcSave { header_type := .PcSave, file_name := "b.sav", model := () }

/-- A save whose header resolves to a profile kind (for the fatal-reload
witness). -/
def saveWithProfileHeader : Bl3Save E0 :=
  { header_type := .PcProfile, file_name := "x.sav", model := () }

def c2run : UpdateResult E0 :=
  interactionUpdate env0 (.ManageSaveInteraction (.Currency (.Money 5))) app0

def c2state : Bl3Application E0 := (resultState c2run).getD app0

def c4run : UpdateResult E0 :=
  filesLoadedUpdate env0 (.Success ("saves", [fileB, fileA])) app0

def c4state : Bl3Application E0 := (resultState c4run).getD app0

def c4cmd : Option (Cmd E0) := resultCmd c4run

def c5run : UpdateResult E0 :=
  filesLoadedAfterSaveUpdate env0 (.Success (fileB, [fileB, fileA])) app0

def c5state : Bl3Application E0 := (resultState c5run).getD app0

def c5cmd : Option (Cmd E0) := resultCmd c5run

/-- `app0` with the scale factor at the lower bound 0.50. -/
def c7app : Bl3Application E0 := { app0 with settings_state.ui_scale_factor := 1 / 2 }

def c10run : UpdateResult E0 :=
  interactionUpdate env0 (.ManageSaveInteraction (.Character (.Level 2))) app0

def c10state : Bl3Application E0 := (resultState c10run).getD app0

def c10cmd : Option (Cmd E0) := resultCmd c10run

/-! ### Proof development -/

theorem charListLe_total : ∀ as bs : List Char, charListLe as bs = true ∨ charListLe bs as = true
  | [], _ => Or.inl rfl
  | _ :: _, [] => Or.inr rfl
  | a :: as, b :: bs => by
    by_cases hab : a < b
    · exact Or.inl (by simp [charListLe, hab])
    · by_cases hba : b < a
      · exact Or.inr (by simp [charListLe, hba])
      · rcases charListLe_total as bs with h | h
        · exact Or.inl (by simp [charListLe, hab, hba, h])
        · exact Or.inr (by simp [charListLe, hab, hba, h])

theorem charListLe_trans : ∀ as bs cs : List Char,
    charListLe as bs = true → charListLe bs cs = true → charListLe as cs = true
  | [], _, _ => fun _ _ => rfl
  | _ :: _, [], _ => fun h _ => by simp [charListLe] at h
  | _ :: _, _ :: _, [] => fun _ h => by simp [charListLe] at h
  | a :: as, b :: bs, c :: cs => by
    intro h1 h2
    simp only [charListLe] at h1 h2 ⊢
    by_cases hab : a < b
    · by_cases hbc : b < c
      · rw [if_pos (lt_trans hab hbc)]
      · rw [if_neg hbc] at h2
        by_cases hcb : c < b
        · rw [if_pos hcb] at h2
          exact Bool.noConfusion h2
        · have hbc' : b = c := le_antisymm (not_lt.mp hcb) (not_lt.mp hbc)
          rw [if_pos (lt_of_lt_of_le hab (le_of_eq hbc'))]
    · rw [if_neg hab] at h1
      by_cases hba : b < a
      · rw [if_pos hba] at h1
        exact Bool.noConfusion h1
      · rw [if_neg hba] at h1
        have hab' : a = b := le_antisymm (not_lt.mp hba) (not_lt.mp hab)
        by_cases hbc : b < c
        · rw [if_pos (lt_of_le_of_lt (le_of_eq hab') hbc)]
        · rw [if_neg hbc] at h2
          by_cases hcb : c < b
          · rw [if_pos hcb] at h2
            exact Bool.noConfusion h2
          · rw [if_neg hcb] at h2
            have hac : ¬ a < c := by rw [hab']; exact hbc
            have hca : ¬ c < a := by rw [hab']; exact hcb
            rw [if_neg hac, if_neg hca]
            exact charListLe_trans as bs cs h1 h2

instance {E : ExtTypes} : IsTotal (Bl3FileType E) fileLe :=
  ⟨fun a b => charListLe_total a.fileName.data b.fileName.data⟩

instance {E : ExtTypes} : IsTrans (Bl3FileType E) fileLe :=
  ⟨fun a b c => charListLe_trans a.fileName.data b.fileName.data c.fileName.data⟩

theorem sortFiles_sorted {E : ExtTypes} (l : List (Bl3FileType E)) :
    List.Sorted fileLe (sortFiles l) :=
  List.sorted_insertionSort fileLe l

theorem sortFiles_perm {E : ExtTypes} (l : List (Bl3FileType E)) :
    (sortFiles l).Perm l :=
  List.perm_insertionSort fileLe l

/-- C6: processing any `Interaction` message first clears the current
notification: the outcome of the dispatch is the outcome on the state whose
notification is already `none`, so the post-state notification never depends
on which notification was active when the message arrived. -/
theorem c6_interaction_clears_notification {E : ExtTypes} (env : Env E)
    (m : InteractionMessage E) (s : Bl3Application E) (n₁ n₂ : Option Notification) :
    interactionUpdate env m { s with notification := n₁ } =
      interactionUpdate env m { s with notification := n₂ } := rfl

/-- C9: a directory-scan error (the `FilesLoaded` and `FilesLoadedAfterSave`
error branches) moves the view to `ChooseSaveDirectory`, sets a Negative
notification carrying the cause, returns no command, and leaves the file
registry (`loaded_files`, `loaded_files_selected`) untouched. -/
theorem c9_scan_error_returns_to_chooser {E : ExtTypes} (env : Env E) :
    (∀ (e : String) (s : Bl3Application E), ∃ s',
        filesLoadedUpdate env (.Error e) s = .ok s' none ∧
        s'.view_state = .ChooseSaveDirectory ∧
        s'.notification = some ⟨"Failed to load save folder: " ++ e, .Negative⟩ ∧
        s'.loaded_files = s.loaded_files ∧
        s'.loaded_files_selected = s.loaded_files_selected) ∧
    (∀ (e : String) (s : Bl3Application E), ∃ s',
        filesLoadedAfterSaveUpdate env (.Error e) s = .ok s' none ∧
        s'.view_state = .ChooseSaveDirectory ∧
        s'.notification = some ⟨"Failed to load save folder: " ++ e, .Negative⟩ ∧
        s'.loaded_files = s.loaded_files ∧
        s'.loaded_files_selected = s.loaded_files_selected) := by
  constructor <;> intro e s <;> exact ⟨_, rfl, rfl, rfl, rfl, rfl⟩

/-- C8: after a successful write, a returned file whose header resolves to a
kind the reload path did not expect panics (aborting the process); both
expected kinds instead proceed to trigger the after-save directory reload. -/
theorem c8_unexpected_header_is_fatal {E : ExtTypes} :
    (∀ (save : Bl3Save E) (s : Bl3Application E),
        (save.header_type = .PcSave ∨ save.header_type = .Ps4Save →
          ∃ s' ft, saveFileCompletedUpdate (.Success save) s =
            .ok s' (some (.LoadFilesAfterSave s.config.saves_dir ft))) ∧
        (save.header_type = .PcProfile ∨ save.header_type = .Ps4Profile →
          saveFileCompletedUpdate (.Success save) s =
            .panicked "Unexpected Bl3FileType when reloading save")) ∧
    (∀ (profile : Bl3Profile E) (s : Bl3Application E),
        (profile.header_type = .PcProfile ∨ profile.header_type = .Ps4Profile →
          ∃ s' ft, saveProfileCompletedUpdate (.Success profile) s =
            .ok s' (some (.LoadFilesAfterSave s.config.saves_dir ft))) ∧
        (profile.header_type = .PcSave ∨ profile.header_type = .Ps4Save →
          saveProfileCompletedUpdate (.Success profile) s =
            .panicked "Unexpected Bl3FileType when reloading profile")) := by
  constructor
  · intro save s
    constructor
    · rintro (h | h)
      · exact ⟨_, .PcSave save, by simp only [saveFileCompletedUpdate, h]; rfl⟩
      · exact ⟨_, .Ps4Save save, by simp only [saveFileCompletedUpdate, h]; rfl⟩
    · rintro (h | h) <;> simp [saveFileCompletedUpdate, h]
  · intro profile s
    constructor
    · rintro (h | h)
      · exact ⟨_, .PcProfile profile, by simp only [saveProfileCompletedUpdate, h]; rfl⟩
      · exact ⟨_, .Ps4Profile profile, by simp only [saveProfileCompletedUpdate, h]; rfl⟩
    · rintro (h | h) <;> simp [saveProfileCompletedUpdate, h]

/-- C8 witness: a save-completed result carrying a profile header panics; a
save header proceeds to the reload command. -/
theorem c8_witness :
    saveFileCompletedUpdate (.Success saveWithProfileHeader) app0 =
      .panicked "Unexpected Bl3FileType when reloading save" :=
  (c8_unexpected_header_is_fatal.1 saveWithProfileHeader app0).2 (Or.inl rfl)

/-- C3 counterexample: a successful scan delivering zero files makes the
`FilesLoaded` handler panic on `expect("loaded_files was empty")` — the
application aborts instead of remaining in `ChooseSaveDirectory`. -/
theorem c3_counterexample :
    filesLoadedUpdate env0 (.Success ("saves", [])) app0 =
      .panicked "loaded_files was empty" := rfl

/-- C3 (amended): when a directory scan completes successfully with zero
files, the `FilesLoaded` handler panics while selecting the first file,
aborting the process; in particular it never enters `ManageSave`, but it does
not keep the application alive in `ChooseSaveDirectory` either. -/
theorem c3_empty_scan_panics {E : ExtTypes} (env : Env E) (dir : String)
    (s : Bl3Application E) :
    filesLoadedUpdate env (.Success (dir, [])) s = .panicked "loaded_files was empty" := rfl

/-- C1: on a save-file commit, if mapping the editable view state onto the
cloned file fails, or serializing the mapped clone fails, the handler returns
no command (no I/O is issued), sets a Negative notification, and the
authoritative `manage_save_state.current_file` keeps its pre-commit value. -/
theorem c1_commit_aborts_on_failure {E : ExtTypes} (env : Env E) (s : Bl3Application E)
    (h : (∃ e, env.mapAllStatesToSave s.manage_save_state.save_view_state
            s.manage_save_state.current_file = .error e) ∨
         (∃ f e, env.mapAllStatesToSave s.manage_save_state.save_view_state
            s.manage_save_state.current_file = .ok f ∧ env.saveAsBytes f = .error e)) :
    ∃ s', interactionUpdate env (.ManageSaveInteraction .SaveFilePressed) s = .ok s' none ∧
      (∃ msg, s'.notification = some ⟨msg, .Negative⟩) ∧
      s'.manage_save_state.current_file = s.manage_save_state.current_file := by
  simp only [interactionUpdate, saveFilePressedUpdate]
  rcases h with ⟨e, he⟩ | ⟨f, e, hf, he⟩
  · rw [he]
    exact ⟨_, rfl, ⟨_, rfl⟩, rfl⟩
  · rw [hf]
    dsimp only
    rw [he]
    exact ⟨_, rfl, ⟨_, rfl⟩, rfl⟩

/-- C1 witness: with a mapper that rejects the view state, the commit on the
concrete application aborts as described. -/
theorem c1_witness :
    ∃ s', interactionUpdate envMapFail (.ManageSaveInteraction .SaveFilePressed) app0 =
        .ok s' none ∧
      (∃ msg, s'.notification = some ⟨msg, .Negative⟩) ∧
      s'.manage_save_state.current_file = app0.manage_save_state.current_file :=
  c1_commit_aborts_on_failure envMapFail app0 (Or.inl ⟨"bad map", rfl⟩)

/-- C4: after every successful reload (`FilesLoaded` on initial load and
refresh, `FilesLoadedAfterSave` after a commit), the stored list of loaded
files is the scanned set sorted lexicographically by file name (a sorted
permutation of the scan result), for every input ordering. -/
theorem c4_reload_sorted {E : ExtTypes} (env : Env E) :
    (∀ (dir : String) (files : List (Bl3FileType E)) (s s' : Bl3Application E)
        (cmd : Option (Cmd E)),
        filesLoadedUpdate env (.Success (dir, files)) s = .ok s' cmd →
        s'.loaded_files = sortFiles files ∧ s'.loaded_files.Perm files ∧
          List.Sorted fileLe s'.loaded_files) ∧
    (∀ (saved : Bl3FileType E) (files : List (Bl3FileType E)) (s s' : Bl3Application E)
        (cmd : Option (Cmd E)),
        filesLoadedAfterSaveUpdate env (.Success (saved, files)) s = .ok s' cmd →
        s'.loaded_files = sortFiles files ∧ s'.loaded_files.Perm files ∧
          List.Sorted fileLe s'.loaded_files) := by
  constructor
  · intro dir files s s' cmd hok
    simp only [filesLoadedUpdate] at hok
    rcases hsf : sortFiles files with _ | ⟨f, rest⟩
    · rw [hsf] at hok
      exact absurd hok (by simp)
    · rw [hsf] at hok
      dsimp only at hok
      injection hok with h1 h2
      subst h1
      refine ⟨rfl, ?_, ?_⟩
      · have h := sortFiles_perm (E := E) files
        rw [hsf] at h
        exact h
      · have h := sortFiles_sorted (E := E) files
        rw [hsf] at h
        exact h
  · intro saved files s s' cmd hok
    simp only [filesLoadedAfterSaveUpdate] at hok
    rcases hfind : (sortFiles files).find? (fun g => g.structEq saved) with _ | sel
    · rw [hfind] at hok
      dsimp only at hok
      rcases hsf : sortFiles files with _ | ⟨f, rest⟩
      · rw [hsf] at hok
        exact absurd hok (by simp)
      · rw [hsf] at hok
        dsimp only at hok
        injection hok with h1 h2
        subst h1
        refine ⟨rfl, ?_, ?_⟩
        · have h := sortFiles_perm (E := E) files
          rw [hsf] at h
          exact h
        · have h := sortFiles_sorted (E := E) files
          rw [hsf] at h
          exact h
    · rw [hfind] at hok
      rcases sel with a | b | c | d <;>
        (dsimp only at hok; injection hok with h1 h2; subst h1;
         exact ⟨rfl, sortFiles_perm files, sortFiles_sorted files⟩)

/-- C4 witness: reloading a concrete out-of-order scan result stores the
file list sorted by name. -/
theorem c4_witness :
    c4state.loaded_files = [fileA, fileB] ∧ List.Sorted fileLe c4state.loaded_files := by
  have hok : c4run = .ok c4state c4cmd := rfl
  have h := (c4_reload_sorted env0).1 "saves" [fileB, fileA] app0 c4state c4cmd hok
  refine ⟨?_, h.2.2⟩
  rw [h.1]
  rfl

/-- C5: when the after-save reload completes (with a non-empty file set, or
it would panic rather than return), the selection becomes the first entry
structurally equal to the just-written file when one exists, and otherwise
the first entry of the sorted reload set. -/
theorem c5_reselect_after_save {E : ExtTypes} (env : Env E)
    (saved : Bl3FileType E) (files : List (Bl3FileType E)) (s s' : Bl3Application E)
    (cmd : Option (Cmd E))
    (hok : filesLoadedAfterSaveUpdate env (.Success (saved, files)) s = .ok s' cmd) :
    (∀ f, (sortFiles files).find? (fun g => g.structEq saved) = some f →
        s'.loaded_files_selected = f) ∧
    ((sortFiles files).find? (fun g => g.structEq saved) = none →
        (sortFiles files).head? = some s'.loaded_files_selected) := by
  simp only [filesLoadedAfterSaveUpdate] at hok
  constructor
  · intro f hfind
    rw [hfind] at hok
    rcases f with a | b | c | d <;>
      (dsimp only at hok; injection hok with h1 h2; subst h1; rfl)
  · intro hfind
    rw [hfind] at hok
    dsimp only at hok
    rcases hsf : sortFiles files with _ | ⟨f, rest⟩
    · rw [hsf] at hok
      exact absurd hok (by simp)
    · rw [hsf] at hok
      dsimp only at hok
      injection hok with h1 h2
      subst h1
      rfl

/-- C5 witness: reloading with an entry structurally equal to the
just-written `fileB` present selects that entry. -/
theorem c5_witness : c5state.loaded_files_selected = fileB := by
  have hok : c5run = .ok c5state c5cmd := rfl
  exact (c5_reselect_after_save env0 fileB [fileB, fileA] app0 c5state c5cmd hok).1 fileB rfl

/-- C2 counterexample: the `Slot` message is a field edit of the editable
view state, yet processing it changes the authoritative
`manage_save_state.current_file`: its file name moves from `old.sav` to the
slot-derived `1.sav`. -/
theorem c2_counterexample :
    InteractionMessage.isFieldEdit
        (E := E0) (.ManageSaveInteraction (.General (.Slot 1))) = true ∧
    (resultState (interactionUpdate env0
        (.ManageSaveInteraction (.General (.Slot 1))) app0)).map
        (fun t => t.manage_save_state.current_file.file_name) = some "1.sav" ∧
    app0.manage_save_state.current_file.file_name = "old.sav" :=
  ⟨rfl, rfl, rfl⟩

/-- C2 (amended): every field-edit interaction message leaves
`manage_profile_state.current_file` unchanged, and every one except
`SaveGeneralInteractionMessage::Slot` also leaves
`manage_save_state.current_file` unchanged; the `Slot` edit changes exactly
the `file_name` of `manage_save_state.current_file`, writing the
slot-derived file name into it. -/
theorem c2_field_edits_preserve_current_file {E : ExtTypes} (env : Env E)
    (m : InteractionMessage E) (s s' : Bl3Application E) (cmd : Option (Cmd E))
    (hEdit : m.isFieldEdit = true)
    (hok : interactionUpdate env m s = .ok s' cmd) :
    s'.manage_profile_state.current_file = s.manage_profile_state.current_file ∧
    (m.isSlotEdit = false →
      s'.manage_save_state.current_file = s.manage_save_state.current_file) ∧
    (∀ slot, m = .ManageSaveInteraction (.General (.Slot slot)) →
      s'.manage_save_state.current_file =
        { s.manage_save_state.current_file with file_name := slotFilename slot }) := by
  cases m with
  | ChooseSaveInteraction m1 => simp [InteractionMessage.isFieldEdit] at hEdit
  | SettingsInteraction m1 => simp [InteractionMessage.isFieldEdit] at hEdit
  | LoadedFileSelected f => simp [InteractionMessage.isFieldEdit] at hEdit
  | RefreshSavesDirectory => simp [InteractionMessage.isFieldEdit] at hEdit
  | Ignore => simp [InteractionMessage.isFieldEdit] at hEdit
  | ManageSaveInteraction ms =>
    cases ms with
    | TabBar tb => simp [InteractionMessage.isFieldEdit] at hEdit
    | Inventory im => simp [InteractionMessage.isFieldEdit] at hEdit
    | SaveFilePressed => simp [InteractionMessage.isFieldEdit] at hEdit
    | General gm =>
      cases gm with
      | Guid guid =>
        simp only [interactionUpdate] at hok
        injection hok with h1 h2
        subst h1
        exact ⟨rfl, fun _ => rfl, fun slot h => by cases h⟩
      | GenerateGuidPressed =>
        simp only [interactionUpdate] at hok
        injection hok with h1 h2
        subst h1
        exact ⟨rfl, fun _ => rfl, fun slot h => by cases h⟩
      | SaveTypeSelected save_type =>
        simp only [interactionUpdate] at hok
        injection hok with h1 h2
        subst h1
        exact ⟨rfl, fun _ => rfl, fun slot h => by cases h⟩
      | Slot slot0 =>
        simp only [interactionUpdate] at hok
        injection hok with h1 h2
        subst h1
        refine ⟨rfl, ?_, ?_⟩
        · intro hfalse
          simp [InteractionMessage.isSlotEdit] at hfalse
        · intro slot' h
          cases h
          rfl
    | Character cm =>
      simp only [interactionUpdate] at hok
      rcases hch : characterStep env cm s.manage_save_state.save_view_state.character_state
        with _ | cs'
      · rw [hch] at hok
        exact absurd hok (by simp)
      · rw [hch] at hok
        dsimp only at hok
        injection hok with h1 h2
        subst h1
        exact ⟨rfl, fun _ => rfl, fun slot h => by cases h⟩
    | Currency cm =>
      simp only [interactionUpdate] at hok
      injection hok with h1 h2
      subst h1
      exact ⟨rfl, fun _ => rfl, fun slot h => by cases h⟩
    | Vehicle vm =>
      rcases vm with ⟨vmsg⟩
      simp only [interactionUpdate] at hok
      injection hok with h1 h2
      subst h1
      exact ⟨rfl, fun _ => rfl, fun slot h => by cases h⟩
  | ManageProfileInteraction mp =>
    cases mp with
    | TabBar tb => simp [InteractionMessage.isFieldEdit] at hEdit
    | Bank bm => simp [InteractionMessage.isFieldEdit] at hEdit
    | SaveProfilePressed => simp [InteractionMessage.isFieldEdit] at hEdit
    | General gm =>
      rcases gm with ⟨profile_type⟩
      simp only [interactionUpdate] at hok
      injection hok with h1 h2
      subst h1
      exact ⟨rfl, fun _ => rfl, fun slot h => by cases h⟩
    | Profile pm =>
      simp only [interactionUpdate] at hok
      injection hok with h1 h2
      subst h1
      exact ⟨rfl, fun _ => rfl, fun slot h => by cases h⟩
    | Keys km =>
      simp only [interactionUpdate] at hok
      injection hok with h1 h2
      subst h1
      exact ⟨rfl, fun _ => rfl, fun slot h => by cases h⟩

/-- C2 witness: a `Money` field edit on the concrete application leaves both
authoritative files unchanged. -/
theorem c2_witness :
    c2state.manage_save_state.current_file = app0.manage_save_state.current_file ∧
    c2state.manage_profile_state.current_file = app0.manage_profile_state.current_file := by
  have hok : interactionUpdate env0 (.ManageSaveInteraction (.Currency (.Money 5))) app0 =
      .ok c2state none := rfl
  have h := c2_field_edits_preserve_current_file env0
    (.ManageSaveInteraction (.Currency (.Money 5))) app0 c2state none rfl hok
  exact ⟨h.2.1 rfl, h.1⟩

theorem bitlenAux_zero : ∀ f, bitlenAux f 0 = 0
  | 0 => rfl
  | _ + 1 => rfl

theorem bitlenAux_spec : ∀ (f n : Nat), 0 < n → n < 2 ^ f →
    n < 2 ^ bitlenAux f n ∧ 2 ^ bitlenAux f n ≤ 2 * n := by
  intro f
  induction f with
  | zero =>
    intro n h1 h2
    simp at h2
    omega
  | succ f ih =>
    intro n h1 h2
    rw [bitlenAux, if_neg (by omega : ¬ n = 0)]
    by_cases hn : n / 2 = 0
    · have hn1 : n = 1 := by omega
      subst hn1
      norm_num [bitlenAux_zero]
    · have hdiv : n / 2 < 2 ^ f := by
        have h2' : (2 : Nat) ^ (f + 1) = 2 * 2 ^ f := by
          rw [pow_succ]
          ring
        omega
      obtain ⟨ha, hb⟩ := ih (n / 2) (by omega) hdiv
      have hp : (2 : Nat) ^ (bitlenAux f (n / 2) + 1) = 2 * 2 ^ bitlenAux f (n / 2) := by
        rw [pow_succ]
        ring
      omega

theorem bitlen_spec (n : Nat) (h : 0 < n) :
    n < 2 ^ bitlen n ∧ 2 ^ bitlen n ≤ 2 * n :=
  bitlenAux_spec n n h (Nat.lt_two_pow n)

theorem expOf_spec (y : ℚ) (hy : 0 < y) :
    (2 : ℚ) ^ expOf y ≤ y ∧ y < 2 ^ (expOf y + 1) := by
  have hnum : 0 < y.num := Rat.num_pos.mpr hy
  have hn0 : 0 < y.num.toNat := by omega
  have hden : 0 < y.den := y.pos
  obtain ⟨n1, n2⟩ := bitlen_spec y.num.toNat hn0
  obtain ⟨d1, d2⟩ := bitlen_spec y.den hden
  have hzn : (y.num.toNat : ℤ) = y.num := Int.toNat_of_nonneg hnum.le
  have hcast : ((y.num.toNat : ℕ) : ℚ) = ((y.num : ℤ) : ℚ) := by exact_mod_cast hzn
  have hyeq : ((y.num.toNat : ℕ) : ℚ) / ((y.den : ℕ) : ℚ) = y := by
    rw [hcast]
    exact Rat.num_div_den y
  have hnq : (0 : ℚ) < ((y.num.toNat : ℕ) : ℚ) := by exact_mod_cast hn0
  have hdq : (0 : ℚ) < ((y.den : ℕ) : ℚ) := by exact_mod_cast hden
  have hp : ∀ k : ℕ, (2 : ℚ) ^ (k : ℤ) = ((2 ^ k : ℕ) : ℚ) := by
    intro k
    rw [zpow_natCast]
    push_cast
    ring
  have hpq : ∀ k : ℕ, (0 : ℚ) < ((2 ^ k : ℕ) : ℚ) := by
    intro k
    exact_mod_cast Nat.pos_pow_of_pos k (by norm_num)
  have hupper : y < 2 ^ (((bitlen y.num.toNat : ℤ) - (bitlen y.den : ℤ)) + 1) := by
    have hnat : y.num.toNat * 2 ^ bitlen y.den < 2 ^ (bitlen y.num.toNat + 1) * y.den := by
      calc y.num.toNat * 2 ^ bitlen y.den
          < 2 ^ bitlen y.num.toNat * 2 ^ bitlen y.den :=
            mul_lt_mul_of_pos_right n1 (pow_pos (by norm_num) _)
        _ ≤ 2 ^ bitlen y.num.toNat * (2 * y.den) :=
            mul_le_mul_of_nonneg_left d2 (Nat.zero_le _)
        _ = 2 ^ (bitlen y.num.toNat + 1) * y.den := by
            rw [pow_succ]
            ring
    have he : (((bitlen y.num.toNat : ℤ) - (bitlen y.den : ℤ)) + 1) =
        ((bitlen y.num.toNat + 1 : ℕ) : ℤ) - ((bitlen y.den : ℕ) : ℤ) := by
      push_cast
      ring
    have hfr : ((y.num.toNat : ℕ) : ℚ) / ((y.den : ℕ) : ℚ) <
        2 ^ (((bitlen y.num.toNat : ℤ) - (bitlen y.den : ℤ)) + 1) := by
      rw [he, zpow_sub₀ (by norm_num : (2 : ℚ) ≠ 0), hp, hp,
        div_lt_div_iff₀ hdq (hpq _)]
      exact_mod_cast hnat
    rw [hyeq] at hfr
    exact hfr
  have hlower : (2 : ℚ) ^ (((bitlen y.num.toNat : ℤ) - (bitlen y.den : ℤ)) - 1) < y := by
    have hnat : 2 ^ bitlen y.num.toNat * y.den < y.num.toNat * 2 ^ (bitlen y.den + 1) := by
      calc 2 ^ bitlen y.num.toNat * y.den
          ≤ 2 * y.num.toNat * y.den :=
            mul_le_mul_of_nonneg_right n2 (Nat.zero_le _)
        _ < 2 * y.num.toNat * 2 ^ bitlen y.den :=
            mul_lt_mul_of_pos_left d1 (by omega)
        _ = y.num.toNat * 2 ^ (bitlen y.den + 1) := by
            rw [pow_succ]
            ring
    have he : (((bitlen y.num.toNat : ℤ) - (bitlen y.den : ℤ)) - 1) =
        ((bitlen y.num.toNat : ℕ) : ℤ) - ((bitlen y.den + 1 : ℕ) : ℤ) := by
      push_cast
      ring
    have hfr : (2 : ℚ) ^ (((bitlen y.num.toNat : ℤ) - (bitlen y.den : ℤ)) - 1) <
        ((y.num.toNat : ℕ) : ℚ) / ((y.den : ℕ) : ℚ) := by
      rw [he, zpow_sub₀ (by norm_num : (2 : ℚ) ≠ 0), hp, hp,
        div_lt_div_iff₀ (hpq _) hdq]
      exact_mod_cast hnat
    rw [hyeq] at hfr
    exact hfr
  simp only [expOf]
  by_cases h : (2 : ℚ) ^ ((bitlen y.num.toNat : ℤ) - (bitlen y.den : ℤ)) ≤ y
  · simp only [if_pos h]
    exact ⟨h, hupper⟩
  · simp only [if_neg h]
    refine ⟨hlower.le, ?_⟩
    rw [sub_add_cancel]
    exact lt_of_not_le h

theorem expOf_eq_of (y : ℚ) (e : ℤ) (hy : 0 < y) (h1 : (2 : ℚ) ^ e ≤ y)
    (h2 : y < 2 ^ (e + 1)) : expOf y = e := by
  obtain ⟨hl, hu⟩ := expOf_spec y hy
  rcases lt_trichotomy (expOf y) e with hlt | heq | hgt
  · exfalso
    have hle : (2 : ℚ) ^ (expOf y + 1) ≤ 2 ^ e := zpow_le_zpow_right₀ (by norm_num) (by omega)
    linarith
  · exact heq
  · exfalso
    have hle : (2 : ℚ) ^ (e + 1) ≤ 2 ^ expOf y := zpow_le_zpow_right₀ (by norm_num) (by omega)
    linarith

theorem roundInt_err (m : ℚ) : |(roundInt m : ℚ) - m| ≤ 1 / 2 := by
  have h0 : 0 ≤ Int.fract m := Int.fract_nonneg m
  have h1 : Int.fract m < 1 := Int.fract_lt_one m
  have hf : (⌊m⌋ : ℚ) = m - Int.fract m := by
    have : Int.fract m = m - ⌊m⌋ := rfl
    rw [this]
    ring
  unfold roundInt
  split_ifs with ha hb hc
  · rw [abs_le, hf]
    constructor <;> linarith
  · rw [abs_le]
    push_cast
    rw [hf]
    constructor <;> linarith
  · rw [abs_le, hf]
    constructor <;> linarith
  · rw [abs_le]
    push_cast
    rw [hf]
    constructor <;> linarith

theorem roundInt_eq_of_fract_gt (m : ℚ) (h : 1 / 2 < Int.fract m) :
    roundInt m = ⌊m⌋ + 1 := by
  rw [roundInt, if_neg (by linarith), if_pos h]

theorem roundDouble_eval (y : ℚ) (e : ℤ) (hy : 0 < y)
    (h1 : (2 : ℚ) ^ e ≤ y) (h2 : y < 2 ^ (e + 1)) :
    roundDouble y = (roundInt (y * 2 ^ ((52 : ℤ) - e)) : ℚ) * 2 ^ (e - 52) := by
  rw [roundDouble, if_neg (ne_of_gt hy), if_pos hy, expOf_eq_of y e hy h1 h2]

theorem roundDouble_close (y : ℚ) (h1 : 0 < y) (h2 : y < 4) :
    |roundDouble y - y| ≤ 1 / 2 ^ 52 := by
  obtain ⟨hl, hu⟩ := expOf_spec y h1
  have he1 : expOf y ≤ 1 := by
    by_contra hgt
    push_neg at hgt
    have h4 : (2 : ℚ) ^ (2 : ℤ) ≤ 2 ^ expOf y := zpow_le_zpow_right₀ (by norm_num) (by omega)
    have h4' : (4 : ℚ) ≤ y := by
      calc (4 : ℚ) = 2 ^ (2 : ℤ) := by norm_num
        _ ≤ 2 ^ expOf y := h4
        _ ≤ y := hl
    linarith
  rw [roundDouble, if_neg (ne_of_gt h1), if_pos h1]
  have hpos : (0 : ℚ) < 2 ^ (expOf y - 52) := zpow_pos (by norm_num) _
  have hme : y * 2 ^ ((52 : ℤ) - expOf y) * 2 ^ (expOf y - 52) = y := by
    rw [mul_assoc, ← zpow_add₀ (by norm_num : (2 : ℚ) ≠ 0)]
    norm_num
  have herr := roundInt_err (y * 2 ^ ((52 : ℤ) - expOf y))
  have hstep : |((roundInt (y * 2 ^ ((52 : ℤ) - expOf y)) : ℚ) -
      y * 2 ^ ((52 : ℤ) - expOf y)) * 2 ^ (expOf y - 52)| =
      |(roundInt (y * 2 ^ ((52 : ℤ) - expOf y)) : ℚ) * 2 ^ (expOf y - 52) - y| := by
    rw [sub_mul, hme]
  have habs : |((roundInt (y * 2 ^ ((52 : ℤ) - expOf y)) : ℚ) -
      y * 2 ^ ((52 : ℤ) - expOf y)) * 2 ^ (expOf y - 52)| =
      |(roundInt (y * 2 ^ ((52 : ℤ) - expOf y)) : ℚ) -
        y * 2 ^ ((52 : ℤ) - expOf y)| * 2 ^ (expOf y - 52) := by
    rw [abs_mul, abs_of_pos hpos]
  rw [← hstep, habs]
  calc |(roundInt (y * 2 ^ ((52 : ℤ) - expOf y)) : ℚ) -
        y * 2 ^ ((52 : ℤ) - expOf y)| * 2 ^ (expOf y - 52)
      ≤ 1 / 2 * 2 ^ (expOf y - 52) := mul_le_mul_of_nonneg_right herr hpos.le
    _ ≤ 1 / 2 ^ 52 := by
        have hz : (2 : ℚ) ^ (expOf y - 52) ≤ 2 ^ ((1 : ℤ) - 52) :=
          zpow_le_zpow_right₀ (by norm_num) (by omega)
        calc (1 : ℚ) / 2 * 2 ^ (expOf y - 52)
            ≤ 1 / 2 * 2 ^ ((1 : ℤ) - 52) := mul_le_mul_of_nonneg_left hz (by norm_num)
          _ = 1 / 2 ^ 52 := by norm_num

/-- Sanity check of the modelled literal: rounding the exact 1/20 to binary64
yields `c005`, the double the source's `0.05` denotes. -/
theorem roundDouble_eq_c005 : roundDouble (1 / 20) = c005 := by
  rw [roundDouble_eval (1 / 20) (-5) (by norm_num) (by norm_num) (by norm_num)]
  have hm : (1 : ℚ) / 20 * 2 ^ ((52 : ℤ) - (-5)) = 144115188075855872 / 20 := by
    norm_num
  rw [hm]
  have hfl : ⌊(144115188075855872 / 20 : ℚ)⌋ = 7205759403792793 := by
    rw [Int.floor_eq_iff]
    constructor <;> norm_num
  have hfr : 1 / 2 < Int.fract (144115188075855872 / 20 : ℚ) := by
    have hdef : Int.fract (144115188075855872 / 20 : ℚ) =
        144115188075855872 / 20 - ⌊(144115188075855872 / 20 : ℚ)⌋ := rfl
    rw [hdef, hfl]
    norm_num
  rw [roundInt_eq_of_fract_gt _ hfr, hfl]
  norm_num [c005]

/-- The concrete f64 step the counterexample exercises: `0.5 - 0.05` in
binary64 is the double `8106479329266893 * 2 ^ (-54)` (a hair above 0.45). -/
theorem f64sub_half_c005 : f64sub (1 / 2) c005 = 8106479329266893 / 2 ^ 54 := by
  have hy : (1 : ℚ) / 2 - c005 = 32425917317067571 / 2 ^ 56 := by norm_num [c005]
  have hy0 : (0 : ℚ) < 1 / 2 - c005 := by
    rw [hy]
    positivity
  rw [f64sub, roundDouble_eval (1 / 2 - c005) (-2) hy0
    (by rw [hy]; norm_num) (by rw [hy]; norm_num)]
  have hm : ((1 : ℚ) / 2 - c005) * 2 ^ ((52 : ℤ) - (-2)) = 32425917317067571 / 4 := by
    rw [hy]
    norm_num
  rw [hm]
  have hfl : ⌊(32425917317067571 / 4 : ℚ)⌋ = 8106479329266892 := by
    rw [Int.floor_eq_iff]
    constructor <;> norm_num
  have hfr : 1 / 2 < Int.fract (32425917317067571 / 4 : ℚ) := by
    have hdef : Int.fract (32425917317067571 / 4 : ℚ) =
        32425917317067571 / 4 - ⌊(32425917317067571 / 4 : ℚ)⌋ := rfl
    rw [hdef, hfl]
    norm_num
  rw [roundInt_eq_of_fract_gt _ hfr, hfl]
  norm_num

theorem scaleStep_decrease {E : ExtTypes} (env : Env E) (s : Bl3Application E) :
    (scaleStep env s false).settings_state.ui_scale_factor =
      if 1 / 2 ≤ s.settings_state.ui_scale_factor
      then f64sub s.settings_state.ui_scale_factor c005
      else s.settings_state.ui_scale_factor := by
  by_cases h : (1 : ℚ) / 2 ≤ s.settings_state.ui_scale_factor
  · simp only [scaleStep, scaleMsgOf, interactionUpdate, settingsUpdate, if_pos h]
  · simp only [scaleStep, scaleMsgOf, interactionUpdate, settingsUpdate, if_neg h]

theorem scaleStep_increase {E : ExtTypes} (env : Env E) (s : Bl3Application E) :
    (scaleStep env s true).settings_state.ui_scale_factor =
      if s.settings_state.ui_scale_factor < 2
      then f64add s.settings_state.ui_scale_factor c005
      else s.settings_state.ui_scale_factor := by
  by_cases h : s.settings_state.ui_scale_factor < 2
  · simp only [scaleStep, scaleMsgOf, interactionUpdate, settingsUpdate, if_pos h]
  · simp only [scaleStep, scaleMsgOf, interactionUpdate, settingsUpdate, if_neg h]

theorem c005_bounds : 1 / 20 < c005 ∧ c005 < 1 / 20 + 1 / 1000000 := by
  constructor <;> norm_num [c005]

theorem scaleStep_inv {E : ExtTypes} (env : Env E) (s : Bl3Application E) (b : Bool)
    (h : scaleInv s.settings_state.ui_scale_factor) :
    scaleInv (scaleStep env s b).settings_state.ui_scale_factor := by
  obtain ⟨hlo, hhi⟩ := h
  obtain ⟨hc1, hc2⟩ := c005_bounds
  have e52 : (1 : ℚ) / 2 ^ 52 ≤ 1 / 1000000 := by norm_num
  cases b
  · rw [scaleStep_decrease]
    by_cases hg : (1 : ℚ) / 2 ≤ s.settings_state.ui_scale_factor
    · rw [if_pos hg]
      have hy0 : (0 : ℚ) < s.settings_state.ui_scale_factor - c005 := by linarith
      have hy4 : s.settings_state.ui_scale_factor - c005 < 4 := by linarith
      have hclose := roundDouble_close _ hy0 hy4
      rw [abs_le] at hclose
      unfold f64sub
      exact ⟨by linarith [hclose.1], by linarith [hclose.2]⟩
    · rw [if_neg hg]
      exact ⟨hlo, hhi⟩
  · rw [scaleStep_increase]
    by_cases hg : s.settings_state.ui_scale_factor < 2
    · rw [if_pos hg]
      have hy0 : (0 : ℚ) < s.settings_state.ui_scale_factor + c005 := by linarith
      have hy4 : s.settings_state.ui_scale_factor + c005 < 4 := by linarith
      have hclose := roundDouble_close _ hy0 hy4
      rw [abs_le] at hclose
      unfold f64add
      exact ⟨by linarith [hclose.1], by linarith [hclose.2]⟩
    · rw [if_neg hg]
      exact ⟨hlo, hhi⟩

theorem runScale_invariant {E : ExtTypes} (env : Env E) (msgs : List Bool)
    (s : Bl3Application E) (h : scaleInv s.settings_state.ui_scale_factor) :
    scaleInv (runScaleMessages env msgs s).settings_state.ui_scale_factor := by
  induction msgs generalizing s with
  | nil => exact h
  | cons b rest ih => exact ih (scaleStep env s b) (scaleStep_inv env s b h)

theorem scaleStep_delta_dec {E : ExtTypes} (env : Env E) (s : Bl3Application E)
    (h : scaleInv s.settings_state.ui_scale_factor)
    (hg : 1 / 2 ≤ s.settings_state.ui_scale_factor) :
    |(scaleStep env s false).settings_state.ui_scale_factor -
        (s.settings_state.ui_scale_factor - 1 / 20)| ≤ 1 / 2 ^ 51 := by
  obtain ⟨hlo, hhi⟩ := h
  obtain ⟨hc1, hc2⟩ := c005_bounds
  have hd : c005 - 1 / 20 = 1 / (5 * 2 ^ 56) := by norm_num [c005]
  have hnum : (1 : ℚ) / 2 ^ 52 + 1 / (5 * 2 ^ 56) ≤ 1 / 2 ^ 51 := by norm_num
  rw [scaleStep_decrease, if_pos hg]
  have hy0 : (0 : ℚ) < s.settings_state.ui_scale_factor - c005 := by linarith
  have hy4 : s.settings_state.ui_scale_factor - c005 < 4 := by linarith
  have hclose := roundDouble_close _ hy0 hy4
  rw [abs_le] at hclose
  unfold f64sub
  rw [abs_le]
  exact ⟨by linarith [hclose.1], by linarith [hclose.2]⟩

theorem scaleStep_delta_inc {E : ExtTypes} (env : Env E) (s : Bl3Application E)
    (h : scaleInv s.settings_state.ui_scale_factor)
    (hg : s.settings_state.ui_scale_factor < 2) :
    |(scaleStep env s true).settings_state.ui_scale_factor -
        (s.settings_state.ui_scale_factor + 1 / 20)| ≤ 1 / 2 ^ 51 := by
  obtain ⟨hlo, hhi⟩ := h
  obtain ⟨hc1, hc2⟩ := c005_bounds
  have hd : c005 - 1 / 20 = 1 / (5 * 2 ^ 56) := by norm_num [c005]
  have hnum : (1 : ℚ) / 2 ^ 52 + 1 / (5 * 2 ^ 56) ≤ 1 / 2 ^ 51 := by norm_num
  rw [scaleStep_increase, if_pos hg]
  have hy0 : (0 : ℚ) < s.settings_state.ui_scale_factor + c005 := by linarith
  have hy4 : s.settings_state.ui_scale_factor + c005 < 4 := by linarith
  have hclose := roundDouble_close _ hy0 hy4
  rw [abs_le] at hclose
  unfold f64add
  rw [abs_le]
  exact ⟨by linarith [hclose.1], by linarith [hclose.2]⟩

/-- C7 counterexample: from a scale factor exactly at the claimed lower bound
0.50, a `DecreaseUIScale` message is accepted (the guard is `>= 0.50`) and
the binary64 subtraction lands on the double `8106479329266893 * 2 ^ (-54)`
(0.45000000000000001...), strictly below the claimed interval [0.50, 2.0]. -/
theorem c7_counterexample :
    c7app.settings_state.ui_scale_factor = 1 / 2 ∧
    (resultState (interactionUpdate env0 (.SettingsInteraction .DecreaseUIScale) c7app)).map
        (fun t => t.settings_state.ui_scale_factor) =
      some (8106479329266893 / 2 ^ 54 : ℚ) ∧
    (8106479329266893 / 2 ^ 54 : ℚ) < 1 / 2 := by
  refine ⟨rfl, ?_, by norm_num⟩
  have h : (1 : ℚ) / 2 ≤ c7app.settings_state.ui_scale_factor := le_refl _
  simp only [interactionUpdate, settingsUpdate, if_pos h, resultState, Option.map]
  have h2 : f64sub c7app.settings_state.ui_scale_factor c005 =
      8106479329266893 / 2 ^ 54 := f64sub_half_c005
  rw [h2]

/-- C7 (amended): under binary64 arithmetic the controller keeps
`ui_scale_factor` within [0.449, 2.051] — not [0.50, 2.0]: the decrease guard
`>= 0.50` accepts a step at exactly 0.50 that lands just above 0.45, and
rounding lets an accepted increase overshoot 2.0 by just over 0.05 — under
every sequence of `DecreaseUIScale`/`IncreaseUIScale` messages starting in
that interval; each accepted step changes the factor by 0.05 up to a rounding
error of at most 2⁻⁵¹, and each rejected step leaves it unchanged. -/
theorem c7_ui_scale_bounds {E : ExtTypes} (env : Env E) :
    (∀ (msgs : List Bool) (s : Bl3Application E),
        scaleInv s.settings_state.ui_scale_factor →
        scaleInv (runScaleMessages env msgs s).settings_state.ui_scale_factor) ∧
    (∀ s : Bl3Application E, scaleInv s.settings_state.ui_scale_factor →
        (1 / 2 ≤ s.settings_state.ui_scale_factor →
          |(scaleStep env s false).settings_state.ui_scale_factor -
              (s.settings_state.ui_scale_factor - 1 / 20)| ≤ 1 / 2 ^ 51) ∧
        (¬ 1 / 2 ≤ s.settings_state.ui_scale_factor →
          (scaleStep env s false).settings_state.ui_scale_factor =
            s.settings_state.ui_scale_factor)) ∧
    (∀ s : Bl3Application E, scaleInv s.settings_state.ui_scale_factor →
        (s.settings_state.ui_scale_factor < 2 →
          |(scaleStep env s true).settings_state.ui_scale_factor -
              (s.settings_state.ui_scale_factor + 1 / 20)| ≤ 1 / 2 ^ 51) ∧
        (¬ s.settings_state.ui_scale_factor < 2 →
          (scaleStep env s true).settings_state.ui_scale_factor =
            s.settings_state.ui_scale_factor)) := by
  refine ⟨fun msgs s h => runScale_invariant env msgs s h,
    fun s h => ⟨fun hg => scaleStep_delta_dec env s h hg, fun hg => ?_⟩,
    fun s h => ⟨fun hg => scaleStep_delta_inc env s h hg, fun hg => ?_⟩⟩
  · rw [scaleStep_decrease, if_neg hg]
  · rw [scaleStep_increase, if_neg hg]

/-- C7 witness: an increase followed by a decrease from factor 1.0 keeps the
factor inside the invariant interval. -/
theorem c7_witness :
    scaleInv (runScaleMessages env0 [true, false] app0).settings_state.ui_scale_factor := by
  have h : scaleInv app0.settings_state.ui_scale_factor := by
    constructor
    · show (449 : ℚ) / 1000 ≤ 1
      norm_num
    · show (1 : ℚ) ≤ 2051 / 1000
      norm_num
  exact (c7_ui_scale_bounds env0).1 [true, false] app0 h

/-- C10: the character editor keeps level and experience coupled: a `Level`
message with a positive level stores that level and looks its required XP up
in `REQUIRED_XP_LIST` (first component of the indexed pair); level 0 stores
XP 0; an `ExperiencePoints` message stores the XP and the level given by
`experience_to_level`, defaulting to 1 when the conversion fails. -/
theorem c10_level_xp_coupling {E : ExtTypes} (env : Env E) :
    (∀ (level : Int) (s s' : Bl3Application E) (cmd : Option (Cmd E)),
        0 < level →
        interactionUpdate env (.ManageSaveInteraction (.Character (.Level level))) s =
          .ok s' cmd →
        ∃ entry, env.requiredXpList.get? (level.toNat - 1) = some entry ∧
          s'.manage_save_state.save_view_state.character_state.experience_points_input =
            entry.1 ∧
          s'.manage_save_state.save_view_state.character_state.level_input = level) ∧
    (∀ (s s' : Bl3Application E) (cmd : Option (Cmd E)),
        interactionUpdate env (.ManageSaveInteraction (.Character (.Level 0))) s = .ok s' cmd →
        s'.manage_save_state.save_view_state.character_state.experience_points_input = 0 ∧
        s'.manage_save_state.save_view_state.character_state.level_input = 0) ∧
    (∀ (xp : Int) (s s' : Bl3Application E) (cmd : Option (Cmd E)),
        interactionUpdate env (.ManageSaveInteraction (.Character (.ExperiencePoints xp))) s =
          .ok s' cmd →
        s'.manage_save_state.save_view_state.character_state.experience_points_input = xp ∧
        s'.manage_save_state.save_view_state.character_state.level_input =
          (env.experienceToLevel xp).getD 1) := by
  refine ⟨?_, ?_, ?_⟩
  · intro level s s' cmd hpos hok
    simp only [interactionUpdate, characterStep] at hok
    rw [if_pos hpos] at hok
    rcases hget : env.requiredXpList.get? (level.toNat - 1) with _ | entry
    · rw [hget] at hok
      exact absurd hok (by simp)
    · rw [hget] at hok
      dsimp only at hok
      injection hok with h1 h2
      subst h1
      exact ⟨entry, rfl, rfl, rfl⟩
  · intro s s' cmd hok
    simp only [interactionUpdate, characterStep] at hok
    rw [if_neg (lt_irrefl (0 : Int))] at hok
    dsimp only at hok
    injection hok with h1 h2
    subst h1
    exact ⟨rfl, rfl⟩
  · intro xp s s' cmd hok
    simp only [interactionUpdate, characterStep] at hok
    injection hok with h1 h2
    subst h1
    exact ⟨rfl, rfl⟩

/-- C10 witness: a `Level 2` message on the concrete application stores
level 2 and the XP entry for level 2 from the concrete table. -/
theorem c10_witness :
    c10state.manage_save_state.save_view_state.character_state.experience_points_input = 358 ∧
    c10state.manage_save_state.save_view_state.character_state.level_input = 2 := by
  have hok : interactionUpdate env0 (.ManageSaveInteraction (.Character (.Level 2))) app0 =
      .ok c10state c10cmd := rfl
  have h := (c10_level_xp_coupling env0).1 2 app0 c10state c10cmd (by norm_num) hok
  rcases h with ⟨entry, hget, hxp, hlvl⟩
  have hcalc : env0.requiredXpList.get? ((2 : Int).toNat - 1) =
      some ((358 : Int), (0 : Int)) := rfl
  rw [hcalc] at hget
  injection hget with he
  rw [← he] at hxp
  exact ⟨hxp, hlvl⟩
